import Mathlib

/-!
Verification of the container-launcher core of `go-tpm-tools`
(`launcher/container_runner.go` and the quote-verification file of the
`internal` package) against its natural-language specification.

The Go code is shallowly embedded: every operation with an external effect
(containerd calls, TPM measurement, the attestation verifier, the filesystem,
the clock, the random source, the crypto library) is a field of an explicit
environment record, and each embedded function returns its Go result together
with a trace of the externally visible actions it performed, in order.
Go `error` values are modelled by the inductive `GoError`; `fmt.Errorf`
wrapping (both `%w` and `%v`) keeps the cause as a `GoError.wrap` node.
-/

namespace GoTpmTools

/-- Go `error` values as used by the launcher: plain `errors.New` /
`fmt.Errorf` messages, wrapping of a cause, and the two typed error kinds
`RetryableError` and `WorkloadError` of the launcher package. -/
inductive GoError where
  | simple (msg : String)
  | wrap (msg : String) (cause : GoError)
  | retryable (cause : GoError)
  | workload (code : Nat)
deriving DecidableEq

/-- `true` exactly for the launcher's `*RetryableError` type. -/
def isRetryable : GoError → Bool
  | GoError.retryable _ => true
  | _ => false

/-- Decidable equality of `Except` results, so that concrete runs of the
embedded functions can be checked by `decide`. -/
instance {ε α : Type} [DecidableEq ε] [DecidableEq α] :
    DecidableEq (Except ε α) := fun a b =>
  match a, b with
  | Except.error x, Except.error y => decidable_of_iff (x = y) (by simp)
  | Except.error _, Except.ok _ => Decidable.isFalse (by simp)
  | Except.ok _, Except.error _ => Decidable.isFalse (by simp)
  | Except.ok x, Except.ok y => decidable_of_iff (x = y) (by simp)

/-! ## Token refresh scheduling (`getNextRefreshFromExpiration`)

Durations are Go `time.Duration` values, i.e. signed integer nanosecond
counts, modelled as `Int`.  The Go function computes in IEEE-754 binary64
(`float64`), which is modelled exactly: `fl` rounds an exact rational to the
nearest binary64 value (round-to-nearest, ties-to-even).  The model does not
clip the binary64 exponent range; for the values this program feeds through
it (int64 nanosecond counts and their 0.1/0.8 multiples, all far inside the
normal range, with no overflow or subnormals) the unclipped rounding agrees
with binary64 exactly.  The final conversion `time.Duration(x)` truncates
the float toward zero. -/

/-- Round a rational to the nearest integer, ties to even (the integer
rounding used by IEEE-754 round-to-nearest-even once a value is scaled to
the significand grid). -/
def rnd_int (s : ℚ) : Int :=
  if s - ⌊s⌋ < 1/2 then ⌊s⌋
  else if 1/2 < s - ⌊s⌋ then ⌊s⌋ + 1
  else if ⌊s⌋ % 2 = 0 then ⌊s⌋ else ⌊s⌋ + 1

/-- The relative-error bound of one binary64 rounding: `2⁻⁵³`. -/
def epsFl : ℚ := 1 / 2 ^ 53

/-- IEEE-754 binary64 rounding of an exact rational: scale so the
significand lies in `[2^52, 2^53)`, round to the nearest grid point (ties
to even), and scale back. -/
def fl (x : ℚ) : ℚ :=
  if x = 0 then 0
  else if 0 < x then
    (rnd_int (x * 2 ^ ((52 : Int) - Int.log 2 x)) : ℚ) *
      2 ^ (Int.log 2 x - (52 : Int))
  else
    -((rnd_int (-x * 2 ^ ((52 : Int) - Int.log 2 (-x))) : ℚ) *
      2 ^ (Int.log 2 (-x) - (52 : Int)))

/-- Go's conversion of a `float64` value to an integer type
(`time.Duration(x)`): the fraction is discarded, truncating toward zero. -/
def goTruncToInt (x : ℚ) : Int :=
  if x < 0 then -⌊-x⌋ else ⌊x⌋

/-- The untyped Go constant `defaultRefreshMultiplier = 0.8`; it is
converted to `float64` (`fl`) at its use site. -/
def defaultRefreshMultiplier : ℚ := 8 / 10

/-- The untyped Go constant `defaultRefreshJitter = 0.1`; it is converted
to `float64` (`fl`) at its use site. -/
def defaultRefreshJitter : ℚ := 1 / 10

/-- `getNextRefreshFromExpiration(expiration, random)` from
`container_runner.go`, with every `float64` operation rounded by `fl`:
`diff := 0.1 * float64(expiration); center := 0.8 * float64(expiration);
minRange := center - diff;
return Duration(minRange + random*2*diff)`
(`random*2` is exact in binary64 but is rounded here too, which is the
identity on the values `rand.Float64` produces). -/
def getNextRefreshFromExpiration (expiration : Int) (random : ℚ) : Int :=
  let expF := fl (expiration : ℚ)
  let diff := fl (fl defaultRefreshJitter * expF)
  let center := fl (fl defaultRefreshMultiplier * expF)
  let minRange := fl (center - diff)
  goTruncToInt (fl (minRange + fl (fl (random * 2) * diff)))

/-- Round-half-even lands within half a unit of its argument. -/
theorem rnd_int_bounds (s : ℚ) :
    s - 1/2 ≤ (rnd_int s : ℚ) ∧ (rnd_int s : ℚ) ≤ s + 1/2 := by
  have h1 := Int.floor_le s
  have h2 := Int.lt_floor_add_one s
  unfold rnd_int
  split_ifs with ha hb hc
  · constructor <;> linarith
  · constructor <;> push_cast <;> linarith
  · constructor <;> linarith
  · constructor <;> push_cast <;> linarith

/-- Rounding fixes zero. -/
theorem fl_zero : fl 0 = 0 := by simp [fl]

/-- Evaluation rule for `fl` on positives when the binade is known. -/
theorem fl_eq_of_bounds (x : ℚ) (e : Int) (h1 : (2:ℚ) ^ e ≤ x)
    (h2 : x < 2 ^ (e + 1)) :
    fl x = (rnd_int (x * 2 ^ ((52 : Int) - e)) : ℚ) * 2 ^ (e - (52 : Int)) := by
  have hx : 0 < x := lt_of_lt_of_le (by positivity) h1
  have hb : (1:ℕ) < 2 := one_lt_two
  have h1n : ((2:ℕ):ℚ) ^ e ≤ x := by exact_mod_cast h1
  have h2n : x < ((2:ℕ):ℚ) ^ (e + 1) := by exact_mod_cast h2
  have ha : e ≤ Int.log 2 x := (Int.zpow_le_iff_le_log hb hx).mp h1n
  have hbb : Int.log 2 x < e + 1 := (Int.lt_zpow_iff_log_lt hb hx).mp h2n
  have hlog : Int.log 2 x = e := by omega
  unfold fl
  rw [if_neg hx.ne', if_pos hx, hlog]

/-- One binary64 rounding overshoots by at most the relative error
`epsFl = 2⁻⁵³`. -/
theorem fl_le (x : ℚ) (hx : 0 ≤ x) : fl x ≤ x * (1 + epsFl) := by
  rcases eq_or_lt_of_le hx with h0 | hpos
  · rw [← h0, fl_zero]
    norm_num
  · have hb : (1:ℕ) < 2 := one_lt_two
    have h1 := Int.zpow_log_le_self hb hpos
    have h2 := Int.lt_zpow_succ_log_self hb x
    have h1q : (2:ℚ) ^ Int.log 2 x ≤ x := by exact_mod_cast h1
    have h2q : x < (2:ℚ) ^ (Int.log 2 x + 1) := by exact_mod_cast h2
    set e : Int := Int.log 2 x with he
    rw [fl_eq_of_bounds x e h1q h2q]
    have hrnd := (rnd_int_bounds (x * 2 ^ ((52 : Int) - e))).2
    have hp : (0:ℚ) < 2 ^ (e - (52 : Int)) := by positivity
    have step1 : (rnd_int (x * 2 ^ ((52 : Int) - e)) : ℚ) *
        2 ^ (e - (52 : Int)) ≤
        (x * 2 ^ ((52 : Int) - e) + 1/2) * 2 ^ (e - (52 : Int)) :=
      mul_le_mul_of_nonneg_right hrnd hp.le
    have hprod : (2:ℚ) ^ ((52 : Int) - e) * 2 ^ (e - (52 : Int)) = 1 := by
      rw [← zpow_add₀ (by norm_num : (2:ℚ) ≠ 0)]
      norm_num
    have hhalf : (1/2 : ℚ) * 2 ^ (e - (52 : Int)) = 2 ^ e * epsFl := by
      rw [show e - (52:Int) = e + (-53) + 1 by ring]
      rw [zpow_add₀ (by norm_num : (2:ℚ) ≠ 0),
        zpow_add₀ (by norm_num : (2:ℚ) ≠ 0)]
      have hepsz : ((2:ℚ) ^ (-53 : Int)) = epsFl := by
        rw [zpow_neg]
        norm_num [epsFl]
      rw [hepsz]
      ring
    calc (rnd_int (x * 2 ^ ((52 : Int) - e)) : ℚ) * 2 ^ (e - (52 : Int)) ≤
        (x * 2 ^ ((52 : Int) - e) + 1/2) * 2 ^ (e - (52 : Int)) := step1
      _ = x * ((2:ℚ) ^ ((52 : Int) - e) * 2 ^ (e - (52 : Int))) +
          (1/2 : ℚ) * 2 ^ (e - (52 : Int)) := by ring
      _ = x + 2 ^ e * epsFl := by rw [hprod, hhalf]; ring
      _ ≤ x + x * epsFl := by
          have hm : (2:ℚ) ^ e * epsFl ≤ x * epsFl :=
            mul_le_mul_of_nonneg_right h1q (by norm_num [epsFl])
          linarith
      _ = x * (1 + epsFl) := by ring

/-- One binary64 rounding undershoots by at most the relative error
`epsFl = 2⁻⁵³`. -/
theorem le_fl (x : ℚ) (hx : 0 ≤ x) : x * (1 - epsFl) ≤ fl x := by
  rcases eq_or_lt_of_le hx with h0 | hpos
  · rw [← h0, fl_zero]
    norm_num
  · have hb : (1:ℕ) < 2 := one_lt_two
    have h1 := Int.zpow_log_le_self hb hpos
    have h2 := Int.lt_zpow_succ_log_self hb x
    have h1q : (2:ℚ) ^ Int.log 2 x ≤ x := by exact_mod_cast h1
    have h2q : x < (2:ℚ) ^ (Int.log 2 x + 1) := by exact_mod_cast h2
    set e : Int := Int.log 2 x with he
    rw [fl_eq_of_bounds x e h1q h2q]
    have hrnd := (rnd_int_bounds (x * 2 ^ ((52 : Int) - e))).1
    have hp : (0:ℚ) < 2 ^ (e - (52 : Int)) := by positivity
    have step1 : (x * 2 ^ ((52 : Int) - e) - 1/2) * 2 ^ (e - (52 : Int)) ≤
        (rnd_int (x * 2 ^ ((52 : Int) - e)) : ℚ) * 2 ^ (e - (52 : Int)) :=
      mul_le_mul_of_nonneg_right hrnd hp.le
    have hprod : (2:ℚ) ^ ((52 : Int) - e) * 2 ^ (e - (52 : Int)) = 1 := by
      rw [← zpow_add₀ (by norm_num : (2:ℚ) ≠ 0)]
      norm_num
    have hhalf : (1/2 : ℚ) * 2 ^ (e - (52 : Int)) = 2 ^ e * epsFl := by
      rw [show e - (52:Int) = e + (-53) + 1 by ring]
      rw [zpow_add₀ (by norm_num : (2:ℚ) ≠ 0),
        zpow_add₀ (by norm_num : (2:ℚ) ≠ 0)]
      have hepsz : ((2:ℚ) ^ (-53 : Int)) = epsFl := by
        rw [zpow_neg]
        norm_num [epsFl]
      rw [hepsz]
      ring
    have hub : (2:ℚ) ^ e * epsFl ≤ x * epsFl :=
      mul_le_mul_of_nonneg_right h1q (by norm_num [epsFl])
    calc x * (1 - epsFl) = x - x * epsFl := by ring
      _ ≤ x - 2 ^ e * epsFl := by linarith
      _ = x * ((2:ℚ) ^ ((52 : Int) - e) * 2 ^ (e - (52 : Int))) -
          (1/2 : ℚ) * 2 ^ (e - (52 : Int)) := by rw [hprod, hhalf]; ring
      _ = (x * 2 ^ ((52 : Int) - e) - 1/2) * 2 ^ (e - (52 : Int)) := by ring
      _ ≤ _ := step1

/-- Rounding a nonnegative value stays nonnegative. -/
theorem fl_nonneg (x : ℚ) (hx : 0 ≤ x) : 0 ≤ fl x := by
  have h := le_fl x hx
  have hz : 0 ≤ x * (1 - epsFl) := by
    apply mul_nonneg hx
    norm_num [epsFl]
  linarith

/-- The binary64 value of `0.1` (significand `7205759403792794`). -/
theorem fl_tenth : fl (1/10) = 7205759403792794 / 2 ^ 56 := by
  rw [fl_eq_of_bounds (1/10) (-4) (by norm_num) (by norm_num)]
  norm_num [rnd_int]

/-- The binary64 value of `0.8`. -/
theorem fl_eight_tenths : fl (8/10) = 7205759403792794 / 2 ^ 53 := by
  rw [fl_eq_of_bounds (8/10) (-1) (by norm_num) (by norm_num)]
  norm_num [rnd_int]

/-- `float64(3)` is exact. -/
theorem fl_three : fl 3 = 3 := by
  rw [fl_eq_of_bounds 3 1 (by norm_num) (by norm_num)]
  norm_num [rnd_int]

/-- The constant `0.1` as a float64 operand. -/
theorem fl_jit : fl defaultRefreshJitter = 7205759403792794 / 2 ^ 56 := by
  unfold defaultRefreshJitter
  exact fl_tenth

/-- The constant `0.8` as a float64 operand. -/
theorem fl_mult : fl defaultRefreshMultiplier = 7205759403792794 / 2 ^ 53 := by
  unfold defaultRefreshMultiplier
  exact fl_eight_tenths

/-- `0.1 * 3` in binary64 (a ties-to-even rounding). -/
theorem fl_diff3 :
    fl (7205759403792794 / 2 ^ 56 * 3) = 5404319552844596 / 2 ^ 54 := by
  rw [fl_eq_of_bounds _ (-2) (by norm_num) (by norm_num)]
  norm_num [rnd_int]

/-- `0.8 * 3` in binary64 (a ties-to-even rounding). -/
theorem fl_center3 :
    fl (7205759403792794 / 2 ^ 53 * 3) = 5404319552844596 / 2 ^ 51 := by
  rw [fl_eq_of_bounds _ 1 (by norm_num) (by norm_num)]
  norm_num [rnd_int]

/-- `center - diff` for expiration 3, in binary64. -/
theorem fl_minrange3 :
    fl (5404319552844596 / 2 ^ 51 - 5404319552844596 / 2 ^ 54) =
      4728779608739022 / 2 ^ 51 := by
  rw [fl_eq_of_bounds _ 1 (by norm_num) (by norm_num)]
  norm_num [rnd_int]

/-- The value `minRange` for expiration 3 is already a binary64 value. -/
theorem fl_idem3 :
    fl (4728779608739022 / 2 ^ 51) = 4728779608739022 / 2 ^ 51 := by
  rw [fl_eq_of_bounds _ 1 (by norm_num) (by norm_num)]
  norm_num [rnd_int]

/-- The full binary64 evaluation at expiration 3 ns, random 0: the code
computes `minRange = 2.1000000000000005` and truncation returns `2`. -/
theorem getNextRefresh_at_three : getNextRefreshFromExpiration 3 0 = 2 := by
  unfold getNextRefreshFromExpiration
  simp only
  rw [show ((3:Int):ℚ) = 3 from by norm_num]
  rw [fl_three, fl_jit, fl_mult]
  rw [fl_diff3, fl_center3]
  rw [fl_minrange3]
  rw [show ((0:ℚ) * 2) = 0 from by norm_num]
  rw [fl_zero]
  rw [show (0:ℚ) * (5404319552844596 / 2 ^ 54) = 0 from by norm_num]
  rw [fl_zero]
  rw [show (4728779608739022 / 2 ^ 51 + (0:ℚ)) = 4728779608739022 / 2 ^ 51
    from by norm_num]
  rw [fl_idem3]
  unfold goTruncToInt
  rw [if_neg (by norm_num : ¬((4728779608739022 / 2 ^ 51 : ℚ) < 0))]
  norm_num

/-- C2, counterexample.  At expiration `L = 3` (nanoseconds) and random
value `r = 0` the binary64 computation yields `minRange =
4728779608739022 / 2^51 ≈ 2.1000000000000005` and the conversion to
`time.Duration` truncates it to `2`, strictly below the claimed lower bound
`0.7·L = 21/10`.  So the returned duration does not always lie in
`[0.7·L, 0.9·L]`. -/
theorem getNextRefresh_cex :
    getNextRefreshFromExpiration 3 0 = 2 ∧
    ¬ ((7 / 10 : ℚ) * (3 : ℚ) ≤
      ((getNextRefreshFromExpiration 3 0 : Int) : ℚ)) := by
  refine ⟨getNextRefresh_at_three, ?_⟩
  rw [getNextRefresh_at_three]
  norm_num

set_option maxHeartbeats 1000000 in
/-- C2, amended.  For every expiration `L > 0` and random `0 ≤ r < 1`, the
binary64 computation returns a duration `d` with
`0.7·L − L·2⁻⁵⁰ − 1 < d ≤ 0.9·L + L·2⁻⁵⁰` (the five float64 roundings
contribute relative error below `2⁻⁵⁰`, and the duration conversion
truncates toward zero; `d` can reach `0.9·L` exactly and can fall more than
one nanosecond below `0.7·L` for large `L`), and in particular `d` is
strictly less than `L`. -/
theorem getNextRefresh_bounds (L : Int) (r : ℚ) (hL : 0 < L)
    (h0 : 0 ≤ r) (h1 : r < 1) :
    (7/10 : ℚ) * L - (L:ℚ) / 2 ^ 50 - 1 <
      ((getNextRefreshFromExpiration L r : Int) : ℚ) ∧
    ((getNextRefreshFromExpiration L r : Int) : ℚ) ≤
      (9/10 : ℚ) * L + (L:ℚ) / 2 ^ 50 ∧
    getNextRefreshFromExpiration L r < L := by
  have hval : getNextRefreshFromExpiration L r =
      goTruncToInt (fl (fl (fl (fl defaultRefreshMultiplier * fl ((L:ℚ))) -
        fl (fl defaultRefreshJitter * fl ((L:ℚ)))) +
        fl (fl (r * 2) * fl (fl defaultRefreshJitter * fl ((L:ℚ)))))) := rfl
  have hLQ : (0:ℚ) < (L:ℚ) := by exact_mod_cast hL
  have hε1 : (0:ℚ) ≤ 1 + epsFl := by norm_num [epsFl]
  have hε2 : (0:ℚ) ≤ 1 - epsFl := by norm_num [epsFl]
  set expF := fl ((L:ℚ)) with hexpFdef
  set jit := fl defaultRefreshJitter with hjitdef
  set mult := fl defaultRefreshMultiplier with hmultdef
  set diff := fl (jit * expF) with hdiffdef
  set center := fl (mult * expF) with hcenterdef
  set minRange := fl (center - diff) with hmrdef
  set R2 := fl (r * 2) with hr2def
  set P := fl (R2 * diff) with hpdef
  set S := fl (minRange + P) with hsdef
  have hexpF0 : 0 ≤ expF := fl_nonneg _ hLQ.le
  have hexpFu : expF ≤ (L:ℚ) * (1 + epsFl) := fl_le _ hLQ.le
  have hexpFl : (L:ℚ) * (1 - epsFl) ≤ expF := le_fl _ hLQ.le
  have hjit0 : 0 ≤ jit := fl_nonneg _ (by norm_num [defaultRefreshJitter])
  have hjitu : jit ≤ (1/10) * (1 + epsFl) := by
    have h := fl_le defaultRefreshJitter (by norm_num [defaultRefreshJitter])
    rw [hjitdef]
    calc fl defaultRefreshJitter ≤ defaultRefreshJitter * (1 + epsFl) := h
      _ = (1/10) * (1 + epsFl) := by norm_num [defaultRefreshJitter]
  have hjitl : (1/10) * (1 - epsFl) ≤ jit := by
    have h := le_fl defaultRefreshJitter (by norm_num [defaultRefreshJitter])
    rw [hjitdef]
    calc (1/10 : ℚ) * (1 - epsFl)
        = defaultRefreshJitter * (1 - epsFl) := by
          norm_num [defaultRefreshJitter]
      _ ≤ fl defaultRefreshJitter := h
  have hmult0 : 0 ≤ mult :=
    fl_nonneg _ (by norm_num [defaultRefreshMultiplier])
  have hmultu : mult ≤ (8/10) * (1 + epsFl) := by
    have h := fl_le defaultRefreshMultiplier
      (by norm_num [defaultRefreshMultiplier])
    rw [hmultdef]
    calc fl defaultRefreshMultiplier
        ≤ defaultRefreshMultiplier * (1 + epsFl) := h
      _ = (8/10) * (1 + epsFl) := by norm_num [defaultRefreshMultiplier]
  have hmultl : (8/10) * (1 - epsFl) ≤ mult := by
    have h := le_fl defaultRefreshMultiplier
      (by norm_num [defaultRefreshMultiplier])
    rw [hmultdef]
    calc (8/10 : ℚ) * (1 - epsFl)
        = defaultRefreshMultiplier * (1 - epsFl) := by
          norm_num [defaultRefreshMultiplier]
      _ ≤ fl defaultRefreshMultiplier := h
  have hde : 0 ≤ jit * expF := mul_nonneg hjit0 hexpF0
  have hdiff0 : 0 ≤ diff := fl_nonneg _ hde
  have hLε2 : 0 ≤ (L:ℚ) * (1 - epsFl) := mul_nonneg hLQ.le hε2
  have hdiffu : diff ≤ (1/10) * (L:ℚ) * (1+epsFl)^3 := by
    calc diff ≤ (jit * expF) * (1 + epsFl) := fl_le _ hde
      _ ≤ (((1/10) * (1+epsFl)) * ((L:ℚ) * (1+epsFl))) * (1+epsFl) := by
          have hmm : jit * expF ≤ ((1/10)*(1+epsFl)) * ((L:ℚ)*(1+epsFl)) :=
            mul_le_mul hjitu hexpFu hexpF0 (by positivity)
          exact mul_le_mul_of_nonneg_right hmm hε1
      _ = (1/10) * (L:ℚ) * (1+epsFl)^3 := by ring
  have hdiffl : (1/10) * (L:ℚ) * (1-epsFl)^3 ≤ diff := by
    calc (1/10 : ℚ) * (L:ℚ) * (1-epsFl)^3
        = (((1/10)*(1-epsFl)) * ((L:ℚ)*(1-epsFl))) * (1-epsFl) := by ring
      _ ≤ (jit * expF) * (1-epsFl) := by
          have hmm : ((1/10:ℚ)*(1-epsFl)) * ((L:ℚ)*(1-epsFl)) ≤ jit * expF :=
            mul_le_mul hjitl hexpFl hLε2 hjit0
          exact mul_le_mul_of_nonneg_right hmm hε2
      _ ≤ diff := le_fl _ hde
  have hce : 0 ≤ mult * expF := mul_nonneg hmult0 hexpF0
  have hcenteru : center ≤ (8/10) * (L:ℚ) * (1+epsFl)^3 := by
    calc center ≤ (mult * expF) * (1 + epsFl) := fl_le _ hce
      _ ≤ (((8/10) * (1+epsFl)) * ((L:ℚ) * (1+epsFl))) * (1+epsFl) := by
          have hmm : mult * expF ≤ ((8/10)*(1+epsFl)) * ((L:ℚ)*(1+epsFl)) :=
            mul_le_mul hmultu hexpFu hexpF0 (by positivity)
          exact mul_le_mul_of_nonneg_right hmm hε1
      _ = (8/10) * (L:ℚ) * (1+epsFl)^3 := by ring
  have hcenterl : (8/10) * (L:ℚ) * (1-epsFl)^3 ≤ center := by
    calc (8/10 : ℚ) * (L:ℚ) * (1-epsFl)^3
        = (((8/10)*(1-epsFl)) * ((L:ℚ)*(1-epsFl))) * (1-epsFl) := by ring
      _ ≤ (mult * expF) * (1-epsFl) := by
          have hmm : ((8/10:ℚ)*(1-epsFl)) * ((L:ℚ)*(1-epsFl)) ≤ mult * expF :=
            mul_le_mul hmultl hexpFl hLε2 hmult0
          exact mul_le_mul_of_nonneg_right hmm hε2
      _ ≤ center := le_fl _ hce
  have hcdu : center - diff ≤
      ((8/10)*(1+epsFl)^3 - (1/10)*(1-epsFl)^3) * (L:ℚ) := by
    nlinarith [hcenteru, hdiffl]
  have hcdl : ((8/10)*(1-epsFl)^3 - (1/10)*(1+epsFl)^3) * (L:ℚ) ≤
      center - diff := by
    nlinarith [hcenterl, hdiffu]
  have hcd0 : 0 ≤ center - diff := by
    have hk : 0 ≤ ((8/10:ℚ)*(1-epsFl)^3 - (1/10)*(1+epsFl)^3) * (L:ℚ) :=
      mul_nonneg (by norm_num [epsFl]) hLQ.le
    linarith
  have hmr0 : 0 ≤ minRange := fl_nonneg _ hcd0
  have hmru : minRange ≤ (center - diff) * (1+epsFl) := fl_le _ hcd0
  have hmrl : (center - diff) * (1-epsFl) ≤ minRange := le_fl _ hcd0
  have hr2e : 0 ≤ r * 2 := by linarith
  have hr20 : 0 ≤ R2 := fl_nonneg _ hr2e
  have hr2u : R2 ≤ (r*2) * (1+epsFl) := fl_le _ hr2e
  have hpe : 0 ≤ R2 * diff := mul_nonneg hr20 hdiff0
  have hp0 : 0 ≤ P := fl_nonneg _ hpe
  have hpu : P ≤ (2/10) * (L:ℚ) * (1+epsFl)^5 := by
    have hx3 : 0 ≤ (1/10 : ℚ) * (L:ℚ) * (1+epsFl)^3 :=
      mul_nonneg (mul_nonneg (by norm_num) hLQ.le) (by positivity)
    have hbase : R2 * diff ≤
        ((r*2)*(1+epsFl)) * ((1/10)*(L:ℚ)*(1+epsFl)^3) :=
      mul_le_mul hr2u hdiffu hdiff0 (mul_nonneg hr2e hε1)
    have hr2two : (r*2)*(1+epsFl) ≤ 2*(1+epsFl) :=
      mul_le_mul_of_nonneg_right (by linarith) hε1
    calc P ≤ (R2 * diff) * (1+epsFl) := fl_le _ hpe
      _ ≤ (((r*2)*(1+epsFl)) * ((1/10)*(L:ℚ)*(1+epsFl)^3)) * (1+epsFl) :=
          mul_le_mul_of_nonneg_right hbase hε1
      _ ≤ ((2*(1+epsFl)) * ((1/10)*(L:ℚ)*(1+epsFl)^3)) * (1+epsFl) :=
          mul_le_mul_of_nonneg_right
            (mul_le_mul_of_nonneg_right hr2two hx3) hε1
      _ = (2/10) * (L:ℚ) * (1+epsFl)^5 := by ring
  have hsum0 : 0 ≤ minRange + P := by linarith
  have hs0 : 0 ≤ S := fl_nonneg _ hsum0
  have hsu : S ≤ (minRange + P) * (1+epsFl) := fl_le _ hsum0
  have hsl : (minRange + P) * (1-epsFl) ≤ S := le_fl _ hsum0
  have hmru2 : minRange ≤
      ((8/10)*(1+epsFl)^3 - (1/10)*(1-epsFl)^3) * (L:ℚ) * (1+epsFl) := by
    calc minRange ≤ (center - diff) * (1+epsFl) := hmru
      _ ≤ (((8/10)*(1+epsFl)^3 - (1/10)*(1-epsFl)^3) * (L:ℚ)) * (1+epsFl) :=
          mul_le_mul_of_nonneg_right hcdu hε1
      _ = _ := by ring
  have hSu2 : S ≤ (((8/10)*(1+epsFl)^3 - (1/10)*(1-epsFl)^3) * (1+epsFl)^2 +
      (2/10)*(1+epsFl)^6) * (L:ℚ) := by
    have hsum : minRange + P ≤
        ((8/10)*(1+epsFl)^3 - (1/10)*(1-epsFl)^3) * (L:ℚ) * (1+epsFl) +
        (2/10) * (L:ℚ) * (1+epsFl)^5 := by linarith
    calc S ≤ (minRange + P) * (1+epsFl) := hsu
      _ ≤ (((8/10)*(1+epsFl)^3 - (1/10)*(1-epsFl)^3) * (L:ℚ) * (1+epsFl) +
          (2/10) * (L:ℚ) * (1+epsFl)^5) * (1+epsFl) :=
          mul_le_mul_of_nonneg_right hsum hε1
      _ = (((8/10)*(1+epsFl)^3 - (1/10)*(1-epsFl)^3) * (1+epsFl)^2 +
          (2/10)*(1+epsFl)^6) * (L:ℚ) := by ring
  have hCup : ((8/10:ℚ)*(1+epsFl)^3 - (1/10)*(1-epsFl)^3) * (1+epsFl)^2 +
      (2/10)*(1+epsFl)^6 ≤ 9/10 + 1/2^50 := by norm_num [epsFl]
  have hupper : S ≤ ((9:ℚ)/10 + 1/2^50) * (L:ℚ) :=
    le_trans hSu2 (mul_le_mul_of_nonneg_right hCup hLQ.le)
  have hmrl2 : ((8/10)*(1-epsFl)^3 - (1/10)*(1+epsFl)^3) * (L:ℚ) * (1-epsFl) ≤
      minRange := by
    calc ((8/10:ℚ)*(1-epsFl)^3 - (1/10)*(1+epsFl)^3) * (L:ℚ) * (1-epsFl)
        = (((8/10)*(1-epsFl)^3 - (1/10)*(1+epsFl)^3) * (L:ℚ)) * (1-epsFl) := by
          ring
      _ ≤ (center - diff) * (1-epsFl) := mul_le_mul_of_nonneg_right hcdl hε2
      _ ≤ minRange := hmrl
  have hSl2 : (((8/10)*(1-epsFl)^3 - (1/10)*(1+epsFl)^3) * (1-epsFl)^2) * (L:ℚ)
      ≤ S := by
    have hPε : 0 ≤ P * (1-epsFl) := mul_nonneg hp0 hε2
    have hmm : minRange * (1-epsFl) ≤ (minRange + P) * (1-epsFl) := by
      linarith [hPε]
    calc (((8/10:ℚ)*(1-epsFl)^3 - (1/10)*(1+epsFl)^3) * (1-epsFl)^2) * (L:ℚ)
        = (((8/10)*(1-epsFl)^3 - (1/10)*(1+epsFl)^3) * (L:ℚ) * (1-epsFl)) *
          (1-epsFl) := by ring
      _ ≤ minRange * (1-epsFl) := mul_le_mul_of_nonneg_right hmrl2 hε2
      _ ≤ (minRange + P) * (1-epsFl) := hmm
      _ ≤ S := hsl
  have hClow : (7:ℚ)/10 - 1/2^50 ≤
      ((8/10:ℚ)*(1-epsFl)^3 - (1/10)*(1+epsFl)^3) * (1-epsFl)^2 := by
    norm_num [epsFl]
  have hlower : ((7:ℚ)/10 - 1/2^50) * (L:ℚ) ≤ S :=
    le_trans (mul_le_mul_of_nonneg_right hClow hLQ.le) hSl2
  have hd : getNextRefreshFromExpiration L r = ⌊S⌋ := by
    rw [hval]
    unfold goTruncToInt
    rw [if_neg (not_lt.mpr hs0)]
  have hfloorle := Int.floor_le S
  have hfloorgt := Int.sub_one_lt_floor S
  have hcoef : ((9:ℚ)/10 + 1/2^50) * (L:ℚ) < (L:ℚ) := by
    have hstep : (0:ℚ) < (1/10 - 1/2^50) * (L:ℚ) :=
      mul_pos (by norm_num) hLQ
    linarith
  refine ⟨?_, ?_, ?_⟩
  · rw [hd]
    have hexp : ((7:ℚ)/10 - 1/2^50) * (L:ℚ) =
        (7/10 : ℚ) * L - (L:ℚ) / 2 ^ 50 := by ring
    linarith
  · rw [hd]
    have hexp : ((9:ℚ)/10 + 1/2^50) * (L:ℚ) =
        (9/10 : ℚ) * L + (L:ℚ) / 2 ^ 50 := by ring
    linarith
  · have hq : ((getNextRefreshFromExpiration L r : Int) : ℚ) < (L:ℚ) := by
      rw [hd]
      linarith
    exact_mod_cast hq

/-- C2, witness for the amended binary64 bounds at `L = 10`, `r = 1/2`. -/
theorem getNextRefresh_bounds_witness :
    (7/10 : ℚ) * (10 : Int) - ((10 : Int) : ℚ) / 2 ^ 50 - 1 <
      ((getNextRefreshFromExpiration 10 (1/2) : Int) : ℚ) ∧
    ((getNextRefreshFromExpiration 10 (1/2) : Int) : ℚ) ≤
      (9/10 : ℚ) * (10 : Int) + ((10 : Int) : ℚ) / 2 ^ 50 ∧
    getNextRefreshFromExpiration 10 (1/2) < 10 :=
  getNextRefresh_bounds 10 (1/2) (by norm_num) (by norm_num) (by norm_num)

/-! ## Measurement of container claims (`measureContainerClaims`)

The COS event-log event types used by the launcher (`cel` package), the
`(type, content)` records passed to `AttestationAgent.MeasureEvent`, and the
trace of externally visible actions an embedded function performs. -/

/-- The `cel` event types measured by the launcher. -/
inductive EventType where
  | imageRefType
  | imageDigestType
  | restartPolicyType
  | imageIDType
  | argType
  | envVarType
  | overrideEnvType
  | overrideArgType
  | launchSeparatorType
deriving DecidableEq

/-- A `cel.CosTlv` record: event type plus content bytes (bytes are kept as a
`String`, matching the `[]byte(...)` conversions in the code; the
`LaunchSeparator` event carries `nil` content, modelled as `""`). -/
structure CosTlv where
  eventType : EventType
  eventContent : String
deriving DecidableEq

/-- Externally visible actions of the launcher, in the order performed. -/
inductive Action where
  | measured (event : CosTlv)
  | mkdirAll (path : String) (mode : Nat)
  | writeFile (path : String) (content : String) (mode : Nat)
  | containerCreated
  | containerDeleted
  | taskCreated
  | taskStarted
  | taskDeleted
deriving DecidableEq

/-- `hostTokenPath` constant. -/
def hostTokenPath : String := "/tmp/container_launcher/"

/-- `attestationVerifierTokenFile` constant. -/
def attestationVerifierTokenFile : String := "attestation_verifier_claims_token"

/-- `path.Join(hostTokenPath, attestationVerifierTokenFile)`. -/
def tokenFilePath : String := "/tmp/container_launcher/attestation_verifier_claims_token"

/-- A `spec.EnvVar` operator override. -/
structure EnvVar where
  name : String
  value : String
deriving DecidableEq

/-- The parts of `spec.LaunchSpec` the embedded functions read. -/
structure LaunchSpec where
  cmd : List String
  envs : List EnvVar
  restartPolicy : String
deriving DecidableEq

/-- Modelled from the spec: `cel.FormatEnvVar` is not among the provided
sources.  Per the spec it formats an override into a `KEY=VALUE` string,
"validating names (no `=`, non-empty)". -/
def FormatEnvVar (name : String) (value : String) : Except GoError String :=
  if name = "" ∨ name.data.contains '=' then
    Except.error (GoError.simple "malformed env var name")
  else
    Except.ok (name ++ "=" ++ value)

/-- `formatEnvVars` from `container_runner.go`: formats each override in
order, wrapping the first failure. -/
def formatEnvVars (envVars : List EnvVar) : Except GoError (List String) :=
  match envVars with
  | [] => Except.ok []
  | v :: rest =>
    match FormatEnvVar v.name v.value with
    | Except.error e => Except.error (GoError.wrap "failed to format env var" e)
    | Except.ok s =>
      match formatEnvVars rest with
      | Except.error e => Except.error e
      | Except.ok ss => Except.ok (s :: ss)

/-- An image-config descriptor as returned by `image.Config(ctx)`. -/
structure ImageConfigDesc where
  mediaType : String
  digest : String
deriving DecidableEq

/-- The generated OCI container spec fields read by the launcher
(`containerSpec.Process.Args` and `containerSpec.Process.Env`). -/
structure ContainerSpec where
  args : List String
  env : List String
deriving DecidableEq

/-- Environment for `measureContainerClaims`: the results of the containerd
calls and the outcome of each `MeasureEvent` call on the attestation agent. -/
structure MeasureEnv where
  imageResult : Except GoError Unit
  imageName : String
  imageDigest : String
  imageConfig : Except GoError ImageConfigDesc
  containerSpec : Except GoError ContainerSpec
  launchSpec : LaunchSpec
  measureOutcome : CosTlv → Except GoError Unit

/-- Measure one event per element of `cs` with type `ty`, in order, stopping
at the first `MeasureEvent` failure (the loops of
`measureContainerClaims`). -/
def measAll (env : MeasureEnv) (ty : EventType) (cs : List String)
    (tr : List Action) : Except GoError Unit × List Action :=
  match cs with
  | [] => (Except.ok (), tr)
  | c :: rest =>
    match env.measureOutcome (CosTlv.mk ty c) with
    | Except.error e => (Except.error e, tr)
    | Except.ok _ => measAll env ty rest (tr ++ [Action.measured (CosTlv.mk ty c)])

/-- The `if imageConfig, err := image.Config(ctx); err == nil` block of
`measureContainerClaims`: the ImageID event is measured exactly when reading
the image config succeeds; a config error is silently skipped. -/
def measImageID (env : MeasureEnv) (tr : List Action) :
    Except GoError Unit × List Action :=
  match env.imageConfig with
  | Except.ok cfg => measAll env EventType.imageIDType [cfg.digest] tr
  | Except.error _ => (Except.ok (), tr)

/-- `measureContainerClaims` from `container_runner.go`: measures ImageRef,
ImageDigest, RestartPolicy, then ImageID when `image.Config` succeeds, then
each container-spec process Arg and Env, then each formatted operator
override Env and each operator Cmd element, and finally the LaunchSeparator
with empty content.  Any error (containerd call, `formatEnvVars`, or
`MeasureEvent`) aborts and is returned. -/
def measureContainerClaims (env : MeasureEnv) :
    Except GoError Unit × List Action :=
  match env.imageResult with
  | Except.error e => (Except.error e, [])
  | Except.ok _ =>
    match measAll env EventType.imageRefType [env.imageName] [] with
    | (Except.error e, tr) => (Except.error e, tr)
    | (Except.ok _, tr) =>
      match measAll env EventType.imageDigestType [env.imageDigest] tr with
      | (Except.error e, tr) => (Except.error e, tr)
      | (Except.ok _, tr) =>
        match measAll env EventType.restartPolicyType
            [env.launchSpec.restartPolicy] tr with
        | (Except.error e, tr) => (Except.error e, tr)
        | (Except.ok _, tr) =>
          match measImageID env tr with
          | (Except.error e, tr) => (Except.error e, tr)
          | (Except.ok _, tr) =>
            match env.containerSpec with
            | Except.error e => (Except.error e, tr)
            | Except.ok cspec =>
              match measAll env EventType.argType cspec.args tr with
              | (Except.error e, tr) => (Except.error e, tr)
              | (Except.ok _, tr) =>
                match measAll env EventType.envVarType cspec.env tr with
                | (Except.error e, tr) => (Except.error e, tr)
                | (Except.ok _, tr) =>
                  match formatEnvVars env.launchSpec.envs with
                  | Except.error e => (Except.error e, tr)
                  | Except.ok envs =>
                    match measAll env EventType.overrideEnvType envs tr with
                    | (Except.error e, tr) => (Except.error e, tr)
                    | (Except.ok _, tr) =>
                      match measAll env EventType.overrideArgType
                          env.launchSpec.cmd tr with
                      | (Except.error e, tr) => (Except.error e, tr)
                      | (Except.ok _, tr) =>
                        measAll env EventType.launchSeparatorType [""] tr

/-- When every `MeasureEvent` in a loop succeeds, the loop appends exactly
one measured event per list element, in order. -/
theorem measAll_ok_trace (env : MeasureEnv) (ty : EventType) :
    ∀ (cs : List String) (tr tr2 : List Action),
      measAll env ty cs tr = (Except.ok (), tr2) →
      tr2 = tr ++ cs.map (fun c => Action.measured (CosTlv.mk ty c)) := by
  intro cs
  induction cs with
  | nil =>
    intro tr tr2 h
    simp [measAll] at h
    simp [h]
  | cons c rest ih =>
    intro tr tr2 h
    unfold measAll at h
    cases hm : env.measureOutcome (CosTlv.mk ty c) with
    | error e => rw [hm] at h; simp at h
    | ok u =>
      rw [hm] at h
      have := ih (tr ++ [Action.measured (CosTlv.mk ty c)]) tr2 h
      simp [this]

/-- The ImageID step appends the ImageID event exactly when the image config
was readable. -/
theorem measImageID_ok_trace (env : MeasureEnv) (tr tr2 : List Action)
    (h : measImageID env tr = (Except.ok (), tr2)) :
    tr2 = tr ++ (match env.imageConfig with
      | Except.ok cfg =>
          [Action.measured (CosTlv.mk EventType.imageIDType cfg.digest)]
      | Except.error _ => []) := by
  unfold measImageID at h
  cases hc : env.imageConfig with
  | ok cfg =>
    rw [hc] at h
    have := measAll_ok_trace env EventType.imageIDType [cfg.digest] tr tr2 h
    simp [this]
  | error e =>
    rw [hc] at h
    simp at h
    simp [h]

/-- `formatEnvVars` yields one formatted string per override. -/
theorem formatEnvVars_length :
    ∀ (envVars : List EnvVar) (ss : List String),
      formatEnvVars envVars = Except.ok ss → ss.length = envVars.length := by
  intro envVars
  induction envVars with
  | nil =>
    intro ss h
    simp [formatEnvVars] at h
    simp [h]
  | cons v rest ih =>
    intro ss h
    unfold formatEnvVars at h
    cases hf : FormatEnvVar v.name v.value with
    | error e => rw [hf] at h; simp at h
    | ok s =>
      rw [hf] at h
      cases hr : formatEnvVars rest with
      | error e => rw [hr] at h; simp at h
      | ok ss2 =>
        rw [hr] at h
        simp at h
        rw [← h]
        simp [ih ss2 hr]

/-- C1.  For every run of `measureContainerClaims` that succeeds (hence for
every `Run` that goes on to start the container task), the measured event
sequence is exactly: ImageRef, ImageDigest, RestartPolicy, then ImageID if
and only if the image config was readable, then one Arg event per
container-spec process argument in order, one EnvVar event per container-spec
environment entry in order, one OverrideEnv event per operator override
environment variable in order (`formatEnvVars` preserves the count), one
OverrideArg event per operator Cmd element in order, and finally the
LaunchSeparator with empty content — nothing else is interleaved. -/
theorem measureContainerClaims_event_sequence (env : MeasureEnv)
    (tr : List Action)
    (h : measureContainerClaims env = (Except.ok (), tr)) :
    ∃ cspec envs,
      env.containerSpec = Except.ok cspec ∧
      formatEnvVars env.launchSpec.envs = Except.ok envs ∧
      envs.length = env.launchSpec.envs.length ∧
      tr = ([CosTlv.mk EventType.imageRefType env.imageName,
             CosTlv.mk EventType.imageDigestType env.imageDigest,
             CosTlv.mk EventType.restartPolicyType env.launchSpec.restartPolicy]
            ++ (match env.imageConfig with
                | Except.ok cfg => [CosTlv.mk EventType.imageIDType cfg.digest]
                | Except.error _ => [])
            ++ cspec.args.map (fun a => CosTlv.mk EventType.argType a)
            ++ cspec.env.map (fun e => CosTlv.mk EventType.envVarType e)
            ++ envs.map (fun e => CosTlv.mk EventType.overrideEnvType e)
            ++ env.launchSpec.cmd.map
                (fun a => CosTlv.mk EventType.overrideArgType a)
            ++ [CosTlv.mk EventType.launchSeparatorType ""]).map
            Action.measured := by
  unfold measureContainerClaims at h
  split at h
  · simp at h
  · split at h
    · simp at h
    · rename_i u1 t1 heq1
      split at h
      · simp at h
      · rename_i u2 t2 heq2
        split at h
        · simp at h
        · rename_i u3 t3 heq3
          split at h
          · simp at h
          · rename_i u4 t4 heq4
            split at h
            · simp at h
            · rename_i cspec heqc
              split at h
              · simp at h
              · rename_i u5 t5 heq5
                split at h
                · simp at h
                · rename_i u6 t6 heq6
                  split at h
                  · simp at h
                  · rename_i envs heqf
                    split at h
                    · simp at h
                    · rename_i u7 t7 heq7
                      split at h
                      · simp at h
                      · rename_i u8 t8 heq8
                        refine ⟨cspec, envs, heqc, heqf,
                          formatEnvVars_length _ _ heqf, ?_⟩
                        have e1 := measAll_ok_trace env _ _ _ _ heq1
                        have e2 := measAll_ok_trace env _ _ _ _ heq2
                        have e3 := measAll_ok_trace env _ _ _ _ heq3
                        have e4 := measImageID_ok_trace env _ _ heq4
                        have e5 := measAll_ok_trace env _ _ _ _ heq5
                        have e6 := measAll_ok_trace env _ _ _ _ heq6
                        have e7 := measAll_ok_trace env _ _ _ _ heq7
                        have e8 := measAll_ok_trace env _ _ _ _ heq8
                        have e9 := measAll_ok_trace env _ _ _ _ h
                        subst e1 e2 e3 e4 e5 e6 e7 e8 e9
                        cases env.imageConfig <;> simp [Function.comp_def]

/-- Test for trace actions that are measurement events. -/
def isMeasuredAction : Action → Bool
  | Action.measured _ => true
  | _ => false

/-- The empty trace only contains measured actions (vacuously). -/
theorem nil_measured : ∀ a ∈ ([] : List Action), isMeasuredAction a = true := by
  simp

/-- `measAll` only ever appends measured events to its input trace. -/
theorem measAll_measured (env : MeasureEnv) (ty : EventType) :
    ∀ (cs : List String) (tr : List Action),
      (∀ a ∈ tr, isMeasuredAction a = true) →
      ∀ a ∈ (measAll env ty cs tr).2, isMeasuredAction a = true := by
  intro cs
  induction cs with
  | nil => intro tr htr; simpa [measAll] using htr
  | cons c rest ih =>
    intro tr htr
    unfold measAll
    cases hm : env.measureOutcome (CosTlv.mk ty c) with
    | error e => simpa using htr
    | ok u =>
      refine ih _ ?_
      intro a ha
      rcases List.mem_append.mp ha with h1 | h2
      · exact htr a h1
      · simp at h2; subst h2; rfl

/-- Equation form of `measAll_measured`. -/
theorem measAll_measured_eq (env : MeasureEnv) (ty : EventType)
    (cs : List String) (tr : List Action) (res : Except GoError Unit)
    (tr2 : List Action) (h : measAll env ty cs tr = (res, tr2))
    (htr : ∀ a ∈ tr, isMeasuredAction a = true) :
    ∀ a ∈ tr2, isMeasuredAction a = true := by
  have hh := measAll_measured env ty cs tr htr
  rw [h] at hh
  exact hh

/-- Equation form of trace purity for the ImageID step. -/
theorem measImageID_measured_eq (env : MeasureEnv) (tr : List Action)
    (res : Except GoError Unit) (tr2 : List Action)
    (h : measImageID env tr = (res, tr2))
    (htr : ∀ a ∈ tr, isMeasuredAction a = true) :
    ∀ a ∈ tr2, isMeasuredAction a = true := by
  unfold measImageID at h
  cases hc : env.imageConfig with
  | ok cfg =>
    rw [hc] at h
    exact measAll_measured_eq env _ _ _ _ _ h htr
  | error e =>
    rw [hc] at h
    simp at h
    rw [← h.2]
    exact htr

/-- Every action in the trace of `measureContainerClaims` — on success or on
failure — is a measurement event: the function performs no filesystem,
container or task operation. -/
theorem measureContainerClaims_measured (env : MeasureEnv) :
    ∀ a ∈ (measureContainerClaims env).2, isMeasuredAction a = true := by
  unfold measureContainerClaims
  split
  · simp
  · split
    · rename_i e t1 heq1
      exact measAll_measured_eq env _ _ _ _ _ heq1 nil_measured
    · rename_i u1 t1 heq1
      have m1 := measAll_measured_eq env _ _ _ _ _ heq1 nil_measured
      split
      · rename_i e t2 heq2
        exact measAll_measured_eq env _ _ _ _ _ heq2 m1
      · rename_i u2 t2 heq2
        have m2 := measAll_measured_eq env _ _ _ _ _ heq2 m1
        split
        · rename_i e t3 heq3
          exact measAll_measured_eq env _ _ _ _ _ heq3 m2
        · rename_i u3 t3 heq3
          have m3 := measAll_measured_eq env _ _ _ _ _ heq3 m2
          split
          · rename_i e t4 heq4
            exact measImageID_measured_eq env _ _ _ heq4 m3
          · rename_i u4 t4 heq4
            have m4 := measImageID_measured_eq env _ _ _ heq4 m3
            split
            · exact m4
            · rename_i cspec heqc
              split
              · rename_i e t5 heq5
                exact measAll_measured_eq env _ _ _ _ _ heq5 m4
              · rename_i u5 t5 heq5
                have m5 := measAll_measured_eq env _ _ _ _ _ heq5 m4
                split
                · rename_i e t6 heq6
                  exact measAll_measured_eq env _ _ _ _ _ heq6 m5
                · rename_i u6 t6 heq6
                  have m6 := measAll_measured_eq env _ _ _ _ _ heq6 m5
                  split
                  · exact m6
                  · rename_i envs heqf
                    split
                    · rename_i e t7 heq7
                      exact measAll_measured_eq env _ _ _ _ _ heq7 m6
                    · rename_i u7 t7 heq7
                      have m7 := measAll_measured_eq env _ _ _ _ _ heq7 m6
                      split
                      · rename_i e t8 heq8
                        exact measAll_measured_eq env _ _ _ _ _ heq8 m7
                      · rename_i u8 t8 heq8
                        have m8 := measAll_measured_eq env _ _ _ _ _ heq8 m7
                        exact measAll_measured env _ _ _ m8

/-- A non-measurement action cannot appear in a measurement trace. -/
theorem not_mem_of_measured (tr : List Action)
    (h : ∀ a ∈ tr, isMeasuredAction a = true) (b : Action)
    (hb : isMeasuredAction b = false) : b ∉ tr := by
  intro hmem
  have := h b hmem
  rw [this] at hb
  exact Bool.noConfusion hb

/-- Concrete all-success measurement environment used to witness C1.
Fields in order: imageResult, imageName, imageDigest, imageConfig,
containerSpec, launchSpec, measureOutcome. -/
def c1Env : MeasureEnv :=
  MeasureEnv.mk (Except.ok ()) "gcr.io/x/app" "sha256:abc"
    (Except.ok (ImageConfigDesc.mk "application/vnd.oci.image.config.v1+json"
      "sha256:cfg"))
    (Except.ok (ContainerSpec.mk ["./entry", "run"] ["PATH=/bin"]))
    (LaunchSpec.mk ["run"] [EnvVar.mk "FOO" "bar"] "Never")
    (fun _ => Except.ok ())

/-- The event list measured in `c1Env`. -/
def c1Trace : List Action :=
  [CosTlv.mk EventType.imageRefType "gcr.io/x/app",
   CosTlv.mk EventType.imageDigestType "sha256:abc",
   CosTlv.mk EventType.restartPolicyType "Never",
   CosTlv.mk EventType.imageIDType "sha256:cfg",
   CosTlv.mk EventType.argType "./entry",
   CosTlv.mk EventType.argType "run",
   CosTlv.mk EventType.envVarType "PATH=/bin",
   CosTlv.mk EventType.overrideEnvType "FOO=bar",
   CosTlv.mk EventType.overrideArgType "run",
   CosTlv.mk EventType.launchSeparatorType ""].map Action.measured

/-- C1, witness: the event-sequence theorem applied to the concrete
environment `c1Env`, whose measured trace is `c1Trace`. -/
theorem measureContainerClaims_event_sequence_witness :
    ∃ cspec envs,
      c1Env.containerSpec = Except.ok cspec ∧
      formatEnvVars c1Env.launchSpec.envs = Except.ok envs ∧
      envs.length = c1Env.launchSpec.envs.length ∧
      c1Trace = ([CosTlv.mk EventType.imageRefType c1Env.imageName,
             CosTlv.mk EventType.imageDigestType c1Env.imageDigest,
             CosTlv.mk EventType.restartPolicyType
               c1Env.launchSpec.restartPolicy]
            ++ (match c1Env.imageConfig with
                | Except.ok cfg => [CosTlv.mk EventType.imageIDType cfg.digest]
                | Except.error _ => [])
            ++ cspec.args.map (fun a => CosTlv.mk EventType.argType a)
            ++ cspec.env.map (fun e => CosTlv.mk EventType.envVarType e)
            ++ envs.map (fun e => CosTlv.mk EventType.overrideEnvType e)
            ++ c1Env.launchSpec.cmd.map
                (fun a => CosTlv.mk EventType.overrideArgType a)
            ++ [CosTlv.mk EventType.launchSeparatorType ""]).map
            Action.measured :=
  measureContainerClaims_event_sequence c1Env c1Trace (by decide)

/-! ## Token refresh (`refreshToken`, `fetchAndWriteToken`) and `Run`

Times are abstract integer instants (`now`, the parsed `exp` claim); the
remaining lifetime passed to `getNextRefreshFromExpiration` is `exp − now`.
The JWT parser, the claims-map parser and `json.MarshalIndent` are oracles in
the environment, as are the verifier (`attestAgent.Attest`) and the outcome
of each filesystem and containerd call. -/

/-- Environment of one `refreshToken` iteration. -/
structure RefreshEnv where
  attest : Except GoError String
  parseRegistered : String → Except GoError Int
  now : Int
  writeFileResult : Except GoError Unit
  parseMap : String → Except GoError (List (String × String))
  marshalClaims : List (String × String) → Except GoError String
  random : ℚ

/-- `refreshToken` from `container_runner.go`: attest, parse the token's
`exp` claim, fail if `exp` is not strictly after `now`, write the token file
(one in-place `os.WriteFile` with mode `0644`), re-parse the token into a
claim map and marshal it for logging (each failure aborts with an error —
after the file has already been written), then return the next refresh delay
computed from the remaining lifetime and the random draw. -/
def refreshToken (env : RefreshEnv) : Except GoError Int × List Action :=
  match env.attest with
  | Except.error e =>
    (Except.error (GoError.wrap "failed to retrieve attestation service token" e), [])
  | Except.ok token =>
    match env.parseRegistered token with
    | Except.error e => (Except.error (GoError.wrap "failed to parse token" e), [])
    | Except.ok exp =>
      if env.now < exp then
        match env.writeFileResult with
        | Except.error e =>
          (Except.error
            (GoError.wrap "failed to write token to container mount source point" e),
           [])
        | Except.ok _ =>
          match env.parseMap token with
          | Except.error e =>
            (Except.error (GoError.wrap "failed to parse token" e),
             [Action.writeFile tokenFilePath token 0o644])
          | Except.ok claims =>
            match env.marshalClaims claims with
            | Except.error e =>
              (Except.error (GoError.wrap "failed to format claims" e),
               [Action.writeFile tokenFilePath token 0o644])
            | Except.ok _ =>
              (Except.ok (getNextRefreshFromExpiration (exp - env.now) env.random),
               [Action.writeFile tokenFilePath token 0o644])
      else (Except.error (GoError.simple "token is expired"), [])

/-- Environment of a `Run`: the measurement environment, the `os.MkdirAll`
outcome, the refresh environment, and the containerd task-call outcomes. -/
structure RunEnv where
  meas : MeasureEnv
  mkdirResult : Except GoError Unit
  refresh : RefreshEnv
  newTask : Except GoError Unit
  waitRegister : Except GoError Unit
  startTask : Except GoError Unit
  statusResult : Except GoError Nat

/-- The synchronous part of `fetchAndWriteToken` /
`fetchAndWriteTokenWithRetry`: `os.MkdirAll(hostTokenPath, 0744)`, then one
`refreshToken`; an error from either is returned.  On success the Go code
additionally spawns the background refresher goroutine, which is concurrent
and not part of this model. -/
def fetchAndWriteToken (env : RunEnv) : Except GoError Unit × List Action :=
  match env.mkdirResult with
  | Except.error e => (Except.error e, [])
  | Except.ok _ =>
    match refreshToken env.refresh with
    | (Except.error e, tr) =>
      (Except.error e, Action.mkdirAll hostTokenPath 0o744 :: tr)
    | (Except.ok _, tr) =>
      (Except.ok (), Action.mkdirAll hostTokenPath 0o744 :: tr)

/-- Outcome of a `Run`: a returned Go result, or blocking forever.  The
latter happens when `task.Wait` fails: the error is only logged, the
returned channel is nil, and after a successful `task.Start` the receive
`status := <-exitStatusC` on a nil channel blocks forever. -/
inductive RunOutcome where
  | ret (r : Except GoError Unit)
  | blocked
deriving DecidableEq

/-- `Run` from `container_runner.go`: measure the container claims, fetch
and write the first token, create the task (`RetryableError` on failure),
register the wait channel (failure only logged), start the task
(`RetryableError` on failure), then receive the exit status; a `Result`
error is returned as-is, a nonzero exit code becomes `WorkloadError{code}`,
a zero exit code is success.  `defer task.Delete(ctx)` runs on every return
path after task creation. -/
def Run (env : RunEnv) : RunOutcome × List Action :=
  match measureContainerClaims env.meas with
  | (Except.error e, tr) =>
    (RunOutcome.ret (Except.error
      (GoError.wrap "failed to measure container claims" e)), tr)
  | (Except.ok _, tr) =>
    match fetchAndWriteToken env with
    | (Except.error e, tr2) =>
      (RunOutcome.ret (Except.error
        (GoError.wrap "failed to fetch and write OIDC token" e)), tr ++ tr2)
    | (Except.ok _, tr2) =>
      match env.newTask with
      | Except.error e =>
        (RunOutcome.ret (Except.error (GoError.retryable e)), tr ++ tr2)
      | Except.ok _ =>
        match env.waitRegister with
        | Except.error _ =>
          match env.startTask with
          | Except.error e2 =>
            (RunOutcome.ret (Except.error (GoError.retryable e2)),
             tr ++ tr2 ++ [Action.taskCreated, Action.taskDeleted])
          | Except.ok _ =>
            (RunOutcome.blocked,
             tr ++ tr2 ++ [Action.taskCreated, Action.taskStarted])
        | Except.ok _ =>
          match env.startTask with
          | Except.error e2 =>
            (RunOutcome.ret (Except.error (GoError.retryable e2)),
             tr ++ tr2 ++ [Action.taskCreated, Action.taskDeleted])
          | Except.ok _ =>
            match env.statusResult with
            | Except.error e =>
              (RunOutcome.ret (Except.error e),
               tr ++ tr2 ++ [Action.taskCreated, Action.taskStarted,
                 Action.taskDeleted])
            | Except.ok code =>
              if code = 0 then
                (RunOutcome.ret (Except.ok ()),
                 tr ++ tr2 ++ [Action.taskCreated, Action.taskStarted,
                   Action.taskDeleted])
              else
                (RunOutcome.ret (Except.error (GoError.workload code)),
                 tr ++ tr2 ++ [Action.taskCreated, Action.taskStarted,
                   Action.taskDeleted])

/-! ### Trace-ordering infrastructure -/

/-- The token-file write action. -/
def isTokenWrite : Action → Bool
  | Action.writeFile p _ _ => p == tokenFilePath
  | _ => false

/-- Any in-place (truncate-and-write) file write. -/
def isInPlaceWrite : Action → Bool
  | Action.writeFile _ _ _ => true
  | _ => false

/-- Task-creation action. -/
def isTaskCreated : Action → Bool
  | Action.taskCreated => true
  | _ => false

/-- Task-start action. -/
def isTaskStarted : Action → Bool
  | Action.taskStarted => true
  | _ => false

/-- `precededBy p q tr = true` when the first `q`-action of `tr` (if any) is
preceded by some `p`-action. -/
def precededBy (p q : Action → Bool) : List Action → Bool
  | [] => true
  | a :: rest => if q a then false else if p a then true else precededBy p q rest

/-- A trace without `q`-actions satisfies `precededBy` vacuously. -/
theorem precededBy_of_no_q (p q : Action → Bool) :
    ∀ (tr : List Action), (∀ a ∈ tr, q a = false) →
      precededBy p q tr = true := by
  intro tr
  induction tr with
  | nil => intro h; rfl
  | cons a rest ih =>
    intro h
    have hqa := h a (by simp)
    by_cases hpa : p a = true
    · simp [precededBy, hqa, hpa]
    · have hpa2 : p a = false := by simpa using hpa
      simp [precededBy, hqa, hpa2]
      exact ih (fun b hb => h b (by simp [hb]))

/-- If a `p`-action occurs and no `q`-action occurs before it, `precededBy`
holds whatever follows. -/
theorem precededBy_of_found (p q : Action → Bool) (a : Action)
    (hp : p a = true) (hq : q a = false) :
    ∀ (tr1 tr2 : List Action), (∀ b ∈ tr1, q b = false) →
      precededBy p q (tr1 ++ a :: tr2) = true := by
  intro tr1
  induction tr1 with
  | nil => intro tr2 h; simp [precededBy, hq, hp]
  | cons b rest ih =>
    intro tr2 h
    have hqb := h b (by simp)
    by_cases hpb : p b = true
    · simp [precededBy, hqb, hpb]
    · have hpb2 : p b = false := by simpa using hpb
      simp [precededBy, hqb, hpb2]
      exact ih tr2 (fun c hc => h c (by simp [hc]))

/-- Non-membership gives pointwise falseness of `isTaskCreated`. -/
theorem isTaskCreated_false_of_not_mem (tr : List Action)
    (h : Action.taskCreated ∉ tr) : ∀ a ∈ tr, isTaskCreated a = false := by
  intro a ha
  cases a <;> first | rfl | exact absurd ha h

/-- Non-membership gives pointwise falseness of `isTaskStarted`. -/
theorem isTaskStarted_false_of_not_mem (tr : List Action)
    (h : Action.taskStarted ∉ tr) : ∀ a ∈ tr, isTaskStarted a = false := by
  intro a ha
  cases a <;> first | rfl | exact absurd ha h

/-- Measured events are neither task actions nor file writes. -/
theorem measured_action_kinds (a : Action) (h : isMeasuredAction a = true) :
    isTaskCreated a = false ∧ isTaskStarted a = false ∧
    isTokenWrite a = false ∧ a ≠ Action.taskCreated ∧
    a ≠ Action.taskStarted := by
  cases a
  all_goals
    simp_all [isMeasuredAction, isTaskCreated, isTaskStarted, isTokenWrite]

/-- `refreshToken` either fails before the write with an empty trace, or
performs exactly one in-place write of the attested token with mode `0644`
(and then returns an error from the logging steps or succeeds). -/
theorem refreshToken_pair_shape (env : RefreshEnv) :
    (∃ e, refreshToken env = (Except.error e, [])) ∨
    (∃ e tok, env.attest = Except.ok tok ∧
       refreshToken env =
         (Except.error e, [Action.writeFile tokenFilePath tok 0o644])) ∨
    (∃ d tok, env.attest = Except.ok tok ∧
       refreshToken env =
         (Except.ok d, [Action.writeFile tokenFilePath tok 0o644])) := by
  unfold refreshToken
  split
  · exact Or.inl ⟨_, rfl⟩
  · rename_i tok ha
    split
    · exact Or.inl ⟨_, rfl⟩
    · split
      · split
        · exact Or.inl ⟨_, rfl⟩
        · split
          · exact Or.inr (Or.inl ⟨_, tok, ha, rfl⟩)
          · split
            · exact Or.inr (Or.inl ⟨_, tok, ha, rfl⟩)
            · exact Or.inr (Or.inr ⟨_, tok, ha, rfl⟩)
      · exact Or.inl ⟨_, rfl⟩

/-- On success, `refreshToken` has written the attested token exactly once,
in place, with mode `0644`. -/
theorem refreshToken_ok_trace_aux (env : RefreshEnv) (d : Int)
    (h : (refreshToken env).1 = Except.ok d) :
    ∃ tok, env.attest = Except.ok tok ∧
      (refreshToken env).2 = [Action.writeFile tokenFilePath tok 0o644] := by
  rcases refreshToken_pair_shape env with ⟨e, h0⟩ | ⟨e, tok, ha, h0⟩ |
    ⟨d2, tok, ha, h0⟩
  · rw [h0] at h; simp at h
  · rw [h0] at h; simp at h
  · rw [h0]
    exact ⟨tok, ha, rfl⟩

/-- Actions of a `refreshToken` trace are never task actions. -/
theorem refreshToken_trace_no_task (env : RefreshEnv) :
    ∀ a ∈ (refreshToken env).2,
      isTaskCreated a = false ∧ isTaskStarted a = false ∧
      a ≠ Action.taskCreated ∧ a ≠ Action.taskStarted := by
  intro a ha
  rcases refreshToken_pair_shape env with ⟨e, h0⟩ | ⟨e, tok, hat, h0⟩ |
    ⟨d2, tok, hat, h0⟩ <;> rw [h0] at ha <;> simp at ha <;>
    subst ha <;> simp [isTaskCreated, isTaskStarted]

/-- The task-stage result of `Run`, as a function of the task-call
outcomes. -/
def runTaskResult (env : RunEnv) : RunOutcome :=
  match env.newTask with
  | Except.error e => RunOutcome.ret (Except.error (GoError.retryable e))
  | Except.ok _ =>
    match env.waitRegister with
    | Except.error _ =>
      match env.startTask with
      | Except.error e2 => RunOutcome.ret (Except.error (GoError.retryable e2))
      | Except.ok _ => RunOutcome.blocked
    | Except.ok _ =>
      match env.startTask with
      | Except.error e2 => RunOutcome.ret (Except.error (GoError.retryable e2))
      | Except.ok _ =>
        match env.statusResult with
        | Except.error e => RunOutcome.ret (Except.error e)
        | Except.ok code =>
          if code = 0 then RunOutcome.ret (Except.ok ())
          else RunOutcome.ret (Except.error (GoError.workload code))

/-- The task-stage trace of `Run`. -/
def runTaskTrace (env : RunEnv) : List Action :=
  match env.newTask with
  | Except.error _ => []
  | Except.ok _ =>
    match env.waitRegister with
    | Except.error _ =>
      match env.startTask with
      | Except.error _ => [Action.taskCreated, Action.taskDeleted]
      | Except.ok _ => [Action.taskCreated, Action.taskStarted]
    | Except.ok _ =>
      match env.startTask with
      | Except.error _ => [Action.taskCreated, Action.taskDeleted]
      | Except.ok _ =>
        [Action.taskCreated, Action.taskStarted, Action.taskDeleted]

/-- After successful measurement and token fetch, `Run` is the task stage
appended to the measurement and fetch traces. -/
theorem Run_decomp (renv : RunEnv) (mtr ftr : List Action)
    (hms : measureContainerClaims renv.meas = (Except.ok (), mtr))
    (hf : fetchAndWriteToken renv = (Except.ok (), ftr)) :
    Run renv = (runTaskResult renv, mtr ++ ftr ++ runTaskTrace renv) := by
  unfold Run runTaskResult runTaskTrace
  rw [hms, hf]
  cases renv.newTask with
  | error e => simp
  | ok u =>
    cases renv.waitRegister with
    | error e =>
      cases renv.startTask with
      | error e2 => simp
      | ok u2 => simp
    | ok u1 =>
      cases renv.startTask with
      | error e2 => simp
      | ok u2 =>
        cases renv.statusResult with
        | error e3 => simp
        | ok code =>
          by_cases hc : code = 0 <;> simp [hc]

/-- `fetchAndWriteToken` either fails before the refresh with an empty
trace, or fails with the mkdir action followed by the refresh trace, or
succeeds with the mkdir action followed by the single token write. -/
theorem fetchAndWriteToken_pair_shape (renv : RunEnv) :
    (∃ e, fetchAndWriteToken renv = (Except.error e, [])) ∨
    (∃ e, fetchAndWriteToken renv =
       (Except.error e, Action.mkdirAll hostTokenPath 0o744 ::
         (refreshToken renv.refresh).2)) ∨
    (∃ tok, renv.refresh.attest = Except.ok tok ∧
       fetchAndWriteToken renv =
         (Except.ok (), [Action.mkdirAll hostTokenPath 0o744,
           Action.writeFile tokenFilePath tok 0o644])) := by
  unfold fetchAndWriteToken
  split
  · exact Or.inl ⟨_, rfl⟩
  · split
    · rename_i e tr heq
      refine Or.inr (Or.inl ⟨e, ?_⟩)
      rw [heq]
    · rename_i d tr heq
      have h1 : (refreshToken renv.refresh).1 = Except.ok d := by rw [heq]
      obtain ⟨tok, hat, htr⟩ := refreshToken_ok_trace_aux renv.refresh d h1
      have htr2 : tr = [Action.writeFile tokenFilePath tok 0o644] := by
        rw [heq] at htr
        exact htr
      refine Or.inr (Or.inr ⟨tok, hat, ?_⟩)
      rw [htr2]

/-- `refreshToken` with an attested token whose `exp` is not strictly after
`now` fails with the `token is expired` error before any write. -/
theorem refreshToken_expired (env : RefreshEnv) (tok : String) (exp : Int)
    (hAtt : env.attest = Except.ok tok)
    (hParse : env.parseRegistered tok = Except.ok exp)
    (hExp : exp ≤ env.now) :
    refreshToken env = (Except.error (GoError.simple "token is expired"), []) := by
  unfold refreshToken
  simp only [hAtt, hParse]
  rw [if_neg (not_lt.mpr hExp)]

/-- C3.  If the verifier's token parses to an `exp` claim that is not
strictly after the current time, `refreshToken` fails with the
`token is expired` error and performs no token-file write; consequently
`Run` (whose first refresh this is) returns an error and never creates or
starts the container task. -/
theorem expired_token_aborts_run (renv : RunEnv) (tok : String) (exp : Int)
    (hAtt : renv.refresh.attest = Except.ok tok)
    (hParse : renv.refresh.parseRegistered tok = Except.ok exp)
    (hExp : exp ≤ renv.refresh.now) :
    refreshToken renv.refresh =
      (Except.error (GoError.simple "token is expired"), []) ∧
    ∃ e tr, Run renv = (RunOutcome.ret (Except.error e), tr) ∧
      Action.taskCreated ∉ tr ∧ Action.taskStarted ∉ tr := by
  have hrt := refreshToken_expired renv.refresh tok exp hAtt hParse hExp
  refine ⟨hrt, ?_⟩
  rcases hms : measureContainerClaims renv.meas with ⟨mres, mtr⟩
  have hmeas := measureContainerClaims_measured renv.meas
  rw [hms] at hmeas
  have hnc : Action.taskCreated ∉ mtr := fun hmem =>
    (measured_action_kinds _ (hmeas _ hmem)).2.2.2.1 rfl
  have hns : Action.taskStarted ∉ mtr := fun hmem =>
    (measured_action_kinds _ (hmeas _ hmem)).2.2.2.2 rfl
  cases mres with
  | error e =>
    refine ⟨GoError.wrap "failed to measure container claims" e, mtr,
      ?_, hnc, hns⟩
    unfold Run
    rw [hms]
  | ok u =>
    cases u
    cases hmk : renv.mkdirResult with
    | error e =>
      have hfw : fetchAndWriteToken renv = (Except.error e, []) := by
        unfold fetchAndWriteToken
        rw [hmk]
      refine ⟨GoError.wrap "failed to fetch and write OIDC token" e,
        mtr ++ [], ?_, by simpa using hnc, by simpa using hns⟩
      unfold Run
      rw [hms, hfw]
    | ok u2 =>
      cases u2
      have hfw : fetchAndWriteToken renv =
          (Except.error (GoError.simple "token is expired"),
           [Action.mkdirAll hostTokenPath 0o744]) := by
        unfold fetchAndWriteToken
        rw [hmk, hrt]
      refine ⟨GoError.wrap "failed to fetch and write OIDC token"
          (GoError.simple "token is expired"),
        mtr ++ [Action.mkdirAll hostTokenPath 0o744], ?_, ?_, ?_⟩
      · unfold Run
        rw [hms, hfw]
      · intro hmem
        rcases List.mem_append.mp hmem with h | h
        · exact hnc h
        · simp at h
      · intro hmem
        rcases List.mem_append.mp hmem with h | h
        · exact hns h
        · simp at h

/-- Concrete measurement environment for the C3 witness. -/
def c3MeasEnv : MeasureEnv :=
  MeasureEnv.mk (Except.ok ()) "img3" "dg3"
    (Except.error (GoError.simple "no config"))
    (Except.ok (ContainerSpec.mk ["entry3"] []))
    (LaunchSpec.mk [] [] "Always") (fun _ => Except.ok ())

/-- Concrete refresh environment for the C3 witness: the parsed `exp`
equals `now`, so the token is already expired. -/
def c3RefreshEnv : RefreshEnv :=
  RefreshEnv.mk (Except.ok "tok3") (fun _ => Except.ok 5) 5 (Except.ok ())
    (fun _ => Except.ok []) (fun _ => Except.ok "cl3") 0

/-- Concrete run environment for the C3 witness. -/
def c3Env : RunEnv :=
  RunEnv.mk c3MeasEnv (Except.ok ()) c3RefreshEnv (Except.ok ())
    (Except.ok ()) (Except.ok ()) (Except.ok 0)

/-- C3, witness at `c3Env`: `exp = now = 5`. -/
theorem expired_token_aborts_run_witness :
    refreshToken c3Env.refresh =
      (Except.error (GoError.simple "token is expired"), []) ∧
    ∃ e tr, Run c3Env = (RunOutcome.ret (Except.error e), tr) ∧
      Action.taskCreated ∉ tr ∧ Action.taskStarted ∉ tr :=
  expired_token_aborts_run c3Env "tok3" 5 rfl rfl (by decide)

/-- C7.  In every `Run`: the container task is created only after the
synchronous first `fetchAndWriteToken` returned success; the token-file
write precedes both task creation and task start in the action trace; and
when the first fetch fails the task is never started. -/
theorem first_refresh_before_task (renv : RunEnv) :
    (Action.taskCreated ∈ (Run renv).2 →
      (fetchAndWriteToken renv).1 = Except.ok ()) ∧
    precededBy isTokenWrite isTaskCreated (Run renv).2 = true ∧
    precededBy isTokenWrite isTaskStarted (Run renv).2 = true ∧
    ((fetchAndWriteToken renv).1 ≠ Except.ok () →
      Action.taskStarted ∉ (Run renv).2) := by
  rcases hms : measureContainerClaims renv.meas with ⟨mres, mtr⟩
  have hmeas := measureContainerClaims_measured renv.meas
  rw [hms] at hmeas
  have hqc : ∀ a ∈ mtr, isTaskCreated a = false :=
    fun a ha => (measured_action_kinds a (hmeas a ha)).1
  have hqs : ∀ a ∈ mtr, isTaskStarted a = false :=
    fun a ha => (measured_action_kinds a (hmeas a ha)).2.1
  have hnc : Action.taskCreated ∉ mtr := fun hmem =>
    (measured_action_kinds _ (hmeas _ hmem)).2.2.2.1 rfl
  have hns : Action.taskStarted ∉ mtr := fun hmem =>
    (measured_action_kinds _ (hmeas _ hmem)).2.2.2.2 rfl
  cases mres with
  | error e =>
    have hrun : Run renv = (RunOutcome.ret (Except.error
        (GoError.wrap "failed to measure container claims" e)), mtr) := by
      unfold Run
      rw [hms]
    rw [hrun]
    exact ⟨fun hmem => absurd hmem hnc,
      precededBy_of_no_q _ _ _ hqc,
      precededBy_of_no_q _ _ _ hqs,
      fun _ => hns⟩
  | ok u =>
    cases u
    rcases fetchAndWriteToken_pair_shape renv with ⟨e, hfw⟩ | ⟨e, hfw⟩ |
      ⟨tok, hat, hfw⟩
    · have hrun : Run renv = (RunOutcome.ret (Except.error
          (GoError.wrap "failed to fetch and write OIDC token" e)),
          mtr ++ []) := by
        unfold Run
        rw [hms, hfw]
      rw [hrun]
      refine ⟨fun hmem => absurd hmem (by simpa using hnc),
        precededBy_of_no_q _ _ _ (by simpa using hqc),
        precededBy_of_no_q _ _ _ (by simpa using hqs),
        fun _ => by simpa using hns⟩
    · have hrun : Run renv = (RunOutcome.ret (Except.error
          (GoError.wrap "failed to fetch and write OIDC token" e)),
          mtr ++ Action.mkdirAll hostTokenPath 0o744 ::
            (refreshToken renv.refresh).2) := by
        unfold Run
        rw [hms, hfw]
      have hqc2 : ∀ a ∈ mtr ++ Action.mkdirAll hostTokenPath 0o744 ::
          (refreshToken renv.refresh).2, isTaskCreated a = false := by
        intro a ha
        rcases List.mem_append.mp ha with h | h
        · exact hqc a h
        · rcases List.mem_cons.mp h with h2 | h2
          · subst h2; rfl
          · exact (refreshToken_trace_no_task renv.refresh a h2).1
      have hqs2 : ∀ a ∈ mtr ++ Action.mkdirAll hostTokenPath 0o744 ::
          (refreshToken renv.refresh).2, isTaskStarted a = false := by
        intro a ha
        rcases List.mem_append.mp ha with h | h
        · exact hqs a h
        · rcases List.mem_cons.mp h with h2 | h2
          · subst h2; rfl
          · exact (refreshToken_trace_no_task renv.refresh a h2).2.1
      have hnc2 : Action.taskCreated ∉ mtr ++
          Action.mkdirAll hostTokenPath 0o744 ::
          (refreshToken renv.refresh).2 := by
        intro hmem
        have := hqc2 _ hmem
        simp [isTaskCreated] at this
      have hns2 : Action.taskStarted ∉ mtr ++
          Action.mkdirAll hostTokenPath 0o744 ::
          (refreshToken renv.refresh).2 := by
        intro hmem
        have := hqs2 _ hmem
        simp [isTaskStarted] at this
      rw [hrun]
      exact ⟨fun hmem => absurd hmem hnc2,
        precededBy_of_no_q _ _ _ hqc2,
        precededBy_of_no_q _ _ _ hqs2,
        fun _ => hns2⟩
    · have hms2 : measureContainerClaims renv.meas = (Except.ok (), mtr) := hms
      have hrun := Run_decomp renv mtr
        [Action.mkdirAll hostTokenPath 0o744,
         Action.writeFile tokenFilePath tok 0o644] hms2 hfw
      have hsplit : mtr ++ [Action.mkdirAll hostTokenPath 0o744,
          Action.writeFile tokenFilePath tok 0o644] ++ runTaskTrace renv =
          (mtr ++ [Action.mkdirAll hostTokenPath 0o744]) ++
          Action.writeFile tokenFilePath tok 0o644 :: runTaskTrace renv := by
        simp
      have hp : isTokenWrite (Action.writeFile tokenFilePath tok 0o644) = true := by
        simp [isTokenWrite]
      have hpre1 : ∀ b ∈ mtr ++ [Action.mkdirAll hostTokenPath 0o744],
          isTaskCreated b = false := by
        intro b hb
        rcases List.mem_append.mp hb with h | h
        · exact hqc b h
        · simp at h; subst h; rfl
      have hpre2 : ∀ b ∈ mtr ++ [Action.mkdirAll hostTokenPath 0o744],
          isTaskStarted b = false := by
        intro b hb
        rcases List.mem_append.mp hb with h | h
        · exact hqs b h
        · simp at h; subst h; rfl
      rw [hrun]
      refine ⟨fun _ => by rw [hfw], ?_, ?_, fun hne => absurd (by rw [hfw]) hne⟩
      · rw [hsplit]
        exact precededBy_of_found _ _ _ hp rfl _ _ hpre1
      · rw [hsplit]
        exact precededBy_of_found _ _ _ hp rfl _ _ hpre2

/-- Concrete all-success run environment for the C7 witness. -/
def c7Env : RunEnv :=
  RunEnv.mk
    (MeasureEnv.mk (Except.ok ()) "img7" "dg7"
      (Except.ok (ImageConfigDesc.mk "mt7" "id7"))
      (Except.ok (ContainerSpec.mk ["entry7"] ["E=7"]))
      (LaunchSpec.mk [] [] "Never") (fun _ => Except.ok ()))
    (Except.ok ())
    (RefreshEnv.mk (Except.ok "tok7") (fun _ => Except.ok 9) 2 (Except.ok ())
      (fun _ => Except.ok []) (fun _ => Except.ok "cl7") 0)
    (Except.ok ()) (Except.ok ()) (Except.ok ()) (Except.ok 0)

/-- C7, witness: the ordering theorem instantiated at the all-success run
environment `c7Env`. -/
theorem first_refresh_before_task_witness :
    (Action.taskCreated ∈ (Run c7Env).2 →
      (fetchAndWriteToken c7Env).1 = Except.ok ()) ∧
    precededBy isTokenWrite isTaskCreated (Run c7Env).2 = true ∧
    precededBy isTokenWrite isTaskStarted (Run c7Env).2 = true ∧
    ((fetchAndWriteToken c7Env).1 ≠ Except.ok () →
      Action.taskStarted ∉ (Run c7Env).2) :=
  first_refresh_before_task c7Env

/-- Concrete all-success refresh environment for the C9 counterexample. -/
def c9Env : RefreshEnv :=
  RefreshEnv.mk (Except.ok "tok9") (fun _ => Except.ok 100) 0 (Except.ok ())
    (fun _ => Except.ok []) (fun _ => Except.ok "cl9") 0

/-- C9, counterexample.  A successful refresh writes the token file by a
single in-place `os.WriteFile` call (truncate and write, `isInPlaceWrite`),
not by an atomic write-temp-and-rename, so the claimed atomic replacement
(under which a concurrent reader could never observe a torn token) does not
hold of the code: the only write in the trace is the in-place one. -/
theorem refreshToken_write_in_place_cex :
    (refreshToken c9Env).2 = [Action.writeFile tokenFilePath "tok9" 0o644] ∧
    (refreshToken c9Env).2.any isInPlaceWrite = true ∧
    (refreshToken c9Env).1 =
      Except.ok (getNextRefreshFromExpiration 100 0) :=
  ⟨rfl, by decide, rfl⟩

/-- C9, amended.  On every successful refresh the token file at
`tokenFilePath` is written exactly once, by one in-place `os.WriteFile` of
the attested token with file mode `0644` (not an atomic rename; the spec's
own design notes record this as a known race). -/
theorem refreshToken_ok_write (env : RefreshEnv) (d : Int)
    (h : (refreshToken env).1 = Except.ok d) :
    ∃ tok, env.attest = Except.ok tok ∧
      (refreshToken env).2 = [Action.writeFile tokenFilePath tok 0o644] :=
  refreshToken_ok_trace_aux env d h

/-- Concrete refresh environment for the C9 amended witness. -/
def c9bEnv : RefreshEnv :=
  RefreshEnv.mk (Except.ok "tok9b") (fun _ => Except.ok 50) 0 (Except.ok ())
    (fun _ => Except.ok []) (fun _ => Except.ok "cl9b") 0

/-- C9, witness: the amended write characterization at `c9bEnv`. -/
theorem refreshToken_ok_write_witness :
    ∃ tok, c9bEnv.attest = Except.ok tok ∧
      (refreshToken c9bEnv).2 = [Action.writeFile tokenFilePath tok 0o644] :=
  refreshToken_ok_write c9bEnv (getNextRefreshFromExpiration 50 0) rfl

/-- Concrete refresh environment in which `json.MarshalIndent` fails after
the write. -/
def c10Env : RefreshEnv :=
  RefreshEnv.mk (Except.ok "tok10") (fun _ => Except.ok 50) 0 (Except.ok ())
    (fun _ => Except.ok []) (fun _ => Except.error (GoError.simple "marshal failure")) 0

/-- Concrete refresh environment in which the second `ParseUnverified`
(into the claim map) fails after the write. -/
def c10bEnv : RefreshEnv :=
  RefreshEnv.mk (Except.ok "tok10b") (fun _ => Except.ok 50) 0 (Except.ok ())
    (fun _ => Except.error (GoError.simple "map parse failure"))
    (fun _ => Except.ok "cl10") 0

/-- C10.  An error from `refreshToken` does not imply the token file is
untouched: in `c10Env` the expiration check passes (`now = 0 < exp = 50`),
the file is written, and the function then fails marshalling the claim map
for logging; in `c10bEnv` it fails re-parsing the token after the write. -/
theorem refreshToken_error_after_write :
    (refreshToken c10Env).1 =
      Except.error (GoError.wrap "failed to format claims"
        (GoError.simple "marshal failure")) ∧
    Action.writeFile tokenFilePath "tok10" 0o644 ∈ (refreshToken c10Env).2 ∧
    c10Env.now < 50 ∧
    (refreshToken c10bEnv).1 =
      Except.error (GoError.wrap "failed to parse token"
        (GoError.simple "map parse failure")) ∧
    Action.writeFile tokenFilePath "tok10b" 0o644 ∈ (refreshToken c10bEnv).2 :=
  ⟨rfl, by decide, by decide, rfl, by decide⟩

/-- Concrete all-success measurement environment for the C6 theorems. -/
def c6MeasEnv : MeasureEnv :=
  MeasureEnv.mk (Except.ok ()) "img6" "dg6"
    (Except.ok (ImageConfigDesc.mk "mt6" "id6"))
    (Except.ok (ContainerSpec.mk ["entry6"] []))
    (LaunchSpec.mk [] [] "OnFailure") (fun _ => Except.ok ())

/-- Concrete all-success refresh environment for the C6 theorems. -/
def c6RefreshEnv : RefreshEnv :=
  RefreshEnv.mk (Except.ok "tok6") (fun _ => Except.ok 8) 1 (Except.ok ())
    (fun _ => Except.ok []) (fun _ => Except.ok "cl6") 0

/-- Concrete run environment in which registering the task wait channel
fails while everything else succeeds. -/
def c6Env : RunEnv :=
  RunEnv.mk c6MeasEnv (Except.ok ()) c6RefreshEnv (Except.ok ())
    (Except.error (GoError.simple "wait failed")) (Except.ok ())
    (Except.ok 0)

/-- C6, counterexample.  An error from `task.Wait` is not returned as a
`RetryableError` (nor as any error): the code only logs it, starts the task,
and then blocks forever receiving on the nil exit channel. -/
theorem wait_error_not_retryable_cex :
    c6Env.waitRegister = Except.error (GoError.simple "wait failed") ∧
    (Run c6Env).1 = RunOutcome.blocked ∧
    (Run c6Env).1 ≠ RunOutcome.ret (Except.error
      (GoError.retryable (GoError.simple "wait failed"))) :=
  ⟨rfl, rfl, by decide⟩

/-- C6, amended.  Once measurement and the first token fetch succeed:
task-creation errors and task-start errors are returned wrapped as
`RetryableError`; an error from registering the wait channel is only logged
(`Run` blocks forever if the subsequent start succeeds); a nonzero exit code
is returned as `WorkloadError` with that code; a zero exit code returns
success. -/
theorem run_task_error_classification (renv : RunEnv)
    (hm1 : (measureContainerClaims renv.meas).1 = Except.ok ())
    (hf1 : (fetchAndWriteToken renv).1 = Except.ok ()) :
    (∀ e, renv.newTask = Except.error e →
      (Run renv).1 = RunOutcome.ret (Except.error (GoError.retryable e))) ∧
    (∀ e, renv.newTask = Except.ok () → renv.startTask = Except.error e →
      (Run renv).1 = RunOutcome.ret (Except.error (GoError.retryable e))) ∧
    (∀ code, renv.newTask = Except.ok () →
      renv.waitRegister = Except.ok () → renv.startTask = Except.ok () →
      renv.statusResult = Except.ok code → code ≠ 0 →
      (Run renv).1 = RunOutcome.ret (Except.error (GoError.workload code))) ∧
    (renv.newTask = Except.ok () → renv.waitRegister = Except.ok () →
      renv.startTask = Except.ok () → renv.statusResult = Except.ok 0 →
      (Run renv).1 = RunOutcome.ret (Except.ok ())) ∧
    (∀ e, renv.newTask = Except.ok () →
      renv.waitRegister = Except.error e → renv.startTask = Except.ok () →
      (Run renv).1 = RunOutcome.blocked) := by
  have hms : measureContainerClaims renv.meas =
      (Except.ok (), (measureContainerClaims renv.meas).2) := by
    rw [← hm1]
  have hfs : fetchAndWriteToken renv =
      (Except.ok (), (fetchAndWriteToken renv).2) := by
    rw [← hf1]
  have hrun := Run_decomp renv _ _ hms hfs
  have hrr : (Run renv).1 = runTaskResult renv := by rw [hrun]
  refine ⟨?_, ?_, ?_, ?_, ?_⟩
  · intro e hNew
    rw [hrr]
    simp only [runTaskResult, hNew]
  · intro e hNew hStart
    rw [hrr]
    simp only [runTaskResult, hNew, hStart]
    cases renv.waitRegister <;> rfl
  · intro code hNew hWait hStart hStatus hcode
    rw [hrr]
    simp only [runTaskResult, hNew, hWait, hStart, hStatus]
    rw [if_neg hcode]
  · intro hNew hWait hStart hStatus
    rw [hrr]
    simp only [runTaskResult, hNew, hWait, hStart, hStatus]
    simp
  · intro e hNew hWait hStart
    rw [hrr]
    simp only [runTaskResult, hNew, hWait, hStart]

/-- Concrete run environment whose task exits with code 42. -/
def c6wEnv : RunEnv :=
  RunEnv.mk c6MeasEnv (Except.ok ()) c6RefreshEnv (Except.ok ())
    (Except.ok ()) (Except.ok ()) (Except.ok 42)

/-- C6, witness: in `c6wEnv` the task exits 42 and `Run` returns
`WorkloadError{42}`. -/
theorem run_task_error_classification_witness :
    (Run c6wEnv).1 = RunOutcome.ret (Except.error (GoError.workload 42)) :=
  (run_task_error_classification c6wEnv rfl rfl).2.2.1 42 rfl rfl rfl rfl
    (by decide)

/-! ## Construction (`NewRunner`) and image labels (`getImageLabels`) -/

/-- `v1.MediaTypeImageConfig`. -/
def MediaTypeImageConfig : String := "application/vnd.oci.image.config.v1+json"

/-- `images.MediaTypeDockerSchema2Config`. -/
def MediaTypeDockerSchema2Config : String :=
  "application/vnd.docker.container.image.v1+json"

/-- The unmarshalled OCI image blob, reduced to the field the launcher
reads (`ociimage.Config.Labels`). -/
structure OCIImage where
  configLabels : List (String × String)
deriving DecidableEq

/-- Environment of `getImageLabels`: `image.Config`, `content.ReadBlob` and
`json.Unmarshal` outcomes. -/
structure LabelsEnv where
  config : Except GoError ImageConfigDesc
  readBlob : Except GoError (List Nat)
  unmarshal : List Nat → Except GoError OCIImage

/-- `getImageLabels` from `container_runner.go`: reads the image config
descriptor; for the OCI image config or legacy Docker schema-2 config media
types it reads and unmarshals the config blob and returns its labels; any
other media type fails with the unknown-media-type error. -/
def getImageLabels (env : LabelsEnv) :
    Except GoError (List (String × String)) :=
  match env.config with
  | Except.error e => Except.error e
  | Except.ok ic =>
    if ic.mediaType = MediaTypeImageConfig ∨
       ic.mediaType = MediaTypeDockerSchema2Config then
      match env.readBlob with
      | Except.error e => Except.error e
      | Except.ok p =>
        match env.unmarshal p with
        | Except.error e => Except.error e
        | Except.ok img => Except.ok img.configLabels
    else
      Except.error (GoError.simple
        ("unknown image config media type " ++ ic.mediaType))

/-- Environment of `NewRunner`: the operator launch spec and the outcomes of
the external calls, in program order.  `getLaunchPolicy` and `policyVerify`
stand for the external `spec.GetLaunchPolicy` / `LaunchPolicy.Verify`
module (policies are opaque handles); `newContainerNonNilOnError` says
whether a failed `NewContainer` still returned a non-nil container (which
the code then deletes). -/
structure NewRunnerEnv where
  launchSpec : LaunchSpec
  initImage : Except GoError Unit
  oldContainerExists : Bool
  labels : LabelsEnv
  getLaunchPolicy : List (String × String) → Except GoError Nat
  policyVerify : Nat → Except GoError Unit
  hostname : Except GoError String
  newContainerResult : Except GoError Unit
  newContainerNonNilOnError : Bool
  containerSpecArgs : Except GoError (List String)
  restClient : Except GoError Unit

/-- The labels value `NewRunner` actually uses: a `getImageLabels` failure
is only logged, and the nil map (here `[]`) is passed on. -/
def imageLabelsOrEmpty (env : NewRunnerEnv) : List (String × String) :=
  match getImageLabels env.labels with
  | Except.error _ => []
  | Except.ok ls => ls

/-- `NewRunner` from `container_runner.go`: pull the image, format the env
overrides, delete a pre-existing container with the reserved id, read image
labels (failure only logged), derive and verify the launch policy, read the
hostname (`RetryableError` on failure), create the container
(`RetryableError` on failure, deleting the container if one was returned),
fetch the generated OCI spec (`RetryableError` on failure), require
`len(Args) > len(Cmd)` (plain error otherwise — note: the already created
container is not deleted on this path), and build the REST verifier client
(plain error on failure).  The `image.Config` call between policy check and
hostname is logging-only and does not influence the result. -/
def NewRunner (env : NewRunnerEnv) : Except GoError Unit × List Action :=
  match env.initImage with
  | Except.error e => (Except.error e, [])
  | Except.ok _ =>
    match formatEnvVars env.launchSpec.envs with
    | Except.error e => (Except.error e, [])
    | Except.ok _ =>
      let tr0 : List Action :=
        if env.oldContainerExists then [Action.containerDeleted] else []
      match env.getLaunchPolicy (imageLabelsOrEmpty env) with
      | Except.error e => (Except.error e, tr0)
      | Except.ok policy =>
        match env.policyVerify policy with
        | Except.error e => (Except.error e, tr0)
        | Except.ok _ =>
          match env.hostname with
          | Except.error e =>
            (Except.error (GoError.retryable
              (GoError.wrap "cannot get hostname" e)), tr0)
          | Except.ok _ =>
            match env.newContainerResult with
            | Except.error e =>
              (Except.error (GoError.retryable
                (GoError.wrap "failed to create a container" e)),
               tr0 ++ (if env.newContainerNonNilOnError then
                 [Action.containerDeleted] else []))
            | Except.ok _ =>
              match env.containerSpecArgs with
              | Except.error e =>
                (Except.error (GoError.retryable e),
                 tr0 ++ [Action.containerCreated])
              | Except.ok args =>
                if args.length ≤ env.launchSpec.cmd.length then
                  (Except.error (GoError.simple
                    "length of Args is shorter or equal to the length of the given Cmd"),
                   tr0 ++ [Action.containerCreated])
                else
                  match env.restClient with
                  | Except.error e =>
                    (Except.error (GoError.wrap
                      "failed to create REST verifier client" e),
                     tr0 ++ [Action.containerCreated])
                  | Except.ok _ =>
                    (Except.ok (), tr0 ++ [Action.containerCreated])

/-- Concrete environment reaching the entrypoint-length check with
`len(Args) = len(Cmd) = 1` (image with empty Entrypoint). -/
def c5Env : NewRunnerEnv :=
  NewRunnerEnv.mk (LaunchSpec.mk ["./run"] [] "Never") (Except.ok ()) false
    (LabelsEnv.mk (Except.ok (ImageConfigDesc.mk
      "application/vnd.oci.image.config.v1+json" "d5"))
      (Except.ok [1]) (fun _ => Except.ok (OCIImage.mk [])))
    (fun _ => Except.ok 0) (fun _ => Except.ok ()) (Except.ok "host5")
    (Except.ok ()) false (Except.ok ["./run"]) (Except.ok ())

/-- C5, counterexample.  With an empty-Entrypoint image (`Args = Cmd =
["./run"]`) construction fails with the plain (non-retryable) entrypoint
error, but — contrary to the claim — the created container is NOT deleted:
the trace ends at `containerCreated` with no `containerDeleted` after it. -/
theorem entrypoint_missing_no_delete_cex :
    NewRunner c5Env =
      (Except.error (GoError.simple
        "length of Args is shorter or equal to the length of the given Cmd"),
       [Action.containerCreated]) ∧
    isRetryable (GoError.simple
      "length of Args is shorter or equal to the length of the given Cmd")
      = false ∧
    Action.containerDeleted ∉ (NewRunner c5Env).2 :=
  ⟨rfl, rfl, by decide⟩

/-- C5, amended.  When construction reaches the generated OCI spec and
`len(Args) ≤ len(CmdOverride)`, `NewRunner` fails with the permanent
(non-retryable) entrypoint error; the created container is not deleted on
this path (with no pre-existing container, the trace is exactly
`[containerCreated]`). -/
theorem entrypoint_missing_permanent (env : NewRunnerEnv)
    (args fes : List String) (pol : Nat) (hn : String)
    (hInit : env.initImage = Except.ok ())
    (hFmt : formatEnvVars env.launchSpec.envs = Except.ok fes)
    (hOld : env.oldContainerExists = false)
    (hPol : env.getLaunchPolicy (imageLabelsOrEmpty env) = Except.ok pol)
    (hVer : env.policyVerify pol = Except.ok ())
    (hHost : env.hostname = Except.ok hn)
    (hNewC : env.newContainerResult = Except.ok ())
    (hArgs : env.containerSpecArgs = Except.ok args)
    (hLen : args.length ≤ env.launchSpec.cmd.length) :
    NewRunner env =
      (Except.error (GoError.simple
        "length of Args is shorter or equal to the length of the given Cmd"),
       [Action.containerCreated]) ∧
    isRetryable (GoError.simple
      "length of Args is shorter or equal to the length of the given Cmd")
      = false ∧
    Action.containerDeleted ∉ (NewRunner env).2 := by
  have h1 : NewRunner env =
      (Except.error (GoError.simple
        "length of Args is shorter or equal to the length of the given Cmd"),
       [Action.containerCreated]) := by
    unfold NewRunner
    simp only [hInit, hFmt, hOld, hPol, hVer, hHost, hNewC, hArgs]
    rw [if_pos hLen]
    simp
  refine ⟨h1, rfl, ?_⟩
  rw [h1]
  simp

/-- Concrete environment for the C5 amended witness (`len(Args) = 2`,
`len(Cmd) = 3`). -/
def c5wEnv : NewRunnerEnv :=
  NewRunnerEnv.mk (LaunchSpec.mk ["a", "b", "c"] [] "Always") (Except.ok ())
    false
    (LabelsEnv.mk (Except.ok (ImageConfigDesc.mk
      "application/vnd.docker.container.image.v1+json" "d5w"))
      (Except.ok [2]) (fun _ => Except.ok (OCIImage.mk [("k", "v")])))
    (fun _ => Except.ok 1) (fun _ => Except.ok ()) (Except.ok "host5w")
    (Except.ok ()) false (Except.ok ["x", "y"]) (Except.ok ())

/-- C5, witness: the amended entrypoint theorem at `c5wEnv`. -/
theorem entrypoint_missing_permanent_witness :
    NewRunner c5wEnv =
      (Except.error (GoError.simple
        "length of Args is shorter or equal to the length of the given Cmd"),
       [Action.containerCreated]) ∧
    isRetryable (GoError.simple
      "length of Args is shorter or equal to the length of the given Cmd")
      = false ∧
    Action.containerDeleted ∉ (NewRunner c5wEnv).2 :=
  entrypoint_missing_permanent c5wEnv ["x", "y"] [] 1 "host5w" rfl rfl rfl
    rfl rfl rfl rfl rfl (by decide)

/-- C8, amended.  Reading image labels fails with the unknown-media-type
error for any config media type other than the OCI image config and legacy
Docker schema-2 config types; but this failure is only logged by
`NewRunner`, which proceeds with empty labels and succeeds when the
remaining steps succeed (it does not fail construction). -/
theorem unknown_media_type_only_logged :
    (∀ (lenv : LabelsEnv) (ic : ImageConfigDesc),
      lenv.config = Except.ok ic →
      ic.mediaType ≠ MediaTypeImageConfig →
      ic.mediaType ≠ MediaTypeDockerSchema2Config →
      getImageLabels lenv = Except.error (GoError.simple
        ("unknown image config media type " ++ ic.mediaType))) ∧
    (∀ (env : NewRunnerEnv) (args fes : List String) (pol : Nat) (hn : String),
      (getImageLabels env.labels).isOk = false →
      env.initImage = Except.ok () →
      formatEnvVars env.launchSpec.envs = Except.ok fes →
      env.getLaunchPolicy [] = Except.ok pol →
      env.policyVerify pol = Except.ok () →
      env.hostname = Except.ok hn →
      env.newContainerResult = Except.ok () →
      env.containerSpecArgs = Except.ok args →
      env.launchSpec.cmd.length < args.length →
      env.restClient = Except.ok () →
      (NewRunner env).1 = Except.ok ()) := by
  constructor
  · intro lenv ic hconf h1 h2
    unfold getImageLabels
    simp only [hconf]
    rw [if_neg (not_or.mpr ⟨h1, h2⟩)]
  · intro env args fes pol hn hLab hInit hFmt hPol hVer hHost hNewC hArgs
      hLen hRest
    have hlab2 : imageLabelsOrEmpty env = [] := by
      unfold imageLabelsOrEmpty
      cases hl : getImageLabels env.labels with
      | error e => rfl
      | ok ls => rw [hl] at hLab; simp [Except.isOk, Except.toBool] at hLab
    unfold NewRunner
    simp only [hInit, hFmt, hlab2, hPol, hVer, hHost, hNewC, hArgs]
    rw [if_neg (not_le.mpr hLen)]
    simp only [hRest]

/-- Concrete environment with an unrecognized config media type and all
other steps succeeding. -/
def c8Env : NewRunnerEnv :=
  NewRunnerEnv.mk (LaunchSpec.mk [] [] "Never") (Except.ok ()) false
    (LabelsEnv.mk (Except.ok (ImageConfigDesc.mk "application/bogus" "d8"))
      (Except.ok [3]) (fun _ => Except.ok (OCIImage.mk [])))
    (fun _ => Except.ok 2) (fun _ => Except.ok ()) (Except.ok "host8")
    (Except.ok ()) false (Except.ok ["entry8"]) (Except.ok ())

/-- C8, counterexample.  In `c8Env` the media type is `application/bogus`:
`getImageLabels` fails with the unknown-media-type error, yet `NewRunner`
still returns success — construction does not fail, contradicting the
claim that the failure is a permanent `ImageError` failing construction. -/
theorem unknown_media_type_not_fatal_cex :
    getImageLabels c8Env.labels =
      Except.error (GoError.simple
        "unknown image config media type application/bogus") ∧
    (NewRunner c8Env).1 = Except.ok () :=
  ⟨by decide, rfl⟩

/-- Concrete environment for the C8 witness. -/
def c8wEnv : NewRunnerEnv :=
  NewRunnerEnv.mk (LaunchSpec.mk ["r"] [] "Always") (Except.ok ()) false
    (LabelsEnv.mk (Except.ok (ImageConfigDesc.mk "text/plain" "d8w"))
      (Except.ok [4]) (fun _ => Except.ok (OCIImage.mk [])))
    (fun _ => Except.ok 3) (fun _ => Except.ok ()) (Except.ok "host8w")
    (Except.ok ()) false (Except.ok ["e1", "e2"]) (Except.ok ())

/-- C8, witness: both amended conjuncts instantiated at `c8wEnv`. -/
theorem unknown_media_type_only_logged_witness :
    getImageLabels c8wEnv.labels = Except.error (GoError.simple
      ("unknown image config media type " ++ "text/plain")) ∧
    (NewRunner c8wEnv).1 = Except.ok () :=
  ⟨unknown_media_type_only_logged.1 c8wEnv.labels
      (ImageConfigDesc.mk "text/plain" "d8w") rfl (by decide) (by decide),
   unknown_media_type_only_logged.2 c8wEnv ["e1", "e2"] [] 3 "host8w"
      (by decide) rfl rfl rfl rfl rfl rfl rfl (by decide) rfl⟩

/-! ## TPM quote verification (`VerifyQuote`, `internal` package)

The `tpm2` library calls (`DecodeSignature`, `HashAlg.Hash`,
`DecodeAttestationData`), the hash function and the two signature
verification primitives are oracles in a `CryptoEnv`.  A decoded
`tpm2.Signature` is modelled with both its ECC and RSA parts as plain
fields (abstracting the library's nil-able pointers).  The `subtle`
constant-time comparisons are modelled as plain equality — constant-time
execution itself is a timing property outside this embedding.
`SamePCRSelection` and `PCRDigest` are repository code not under the
provided sources and are modelled from the spec. -/

/-- `tpm2.AlgRSASSA`. -/
def algRSASSA : Nat := 0x0014

/-- `tpm2.AlgECDSA`. -/
def algECDSA : Nat := 0x0018

/-- `tpm2.TagAttestQuote`. -/
def tagAttestQuote : Nat := 0x8018

/-- A decoded `tpm2.Signature`. -/
structure TPMSignature where
  alg : Nat
  eccHashAlg : Nat
  eccR : Int
  eccS : Int
  rsaHashAlg : Nat
  rsaSignature : List Nat
deriving DecidableEq

/-- A `tpm2.PCRSelection`: bank hash algorithm and selected indices. -/
structure PCRSelection where
  hash : Nat
  pcrs : List Nat
deriving DecidableEq

/-- A `pb.Pcrs` message: bank hash algorithm and the index→value map
(kept as an association list in index order). -/
structure Pcrs where
  hash : Nat
  pcrs : List (Nat × List Nat)
deriving DecidableEq

/-- A `tpm2.QuoteInfo`. -/
structure QuoteInfo where
  pcrSelection : PCRSelection
  pcrDigest : List Nat
deriving DecidableEq

/-- Decoded `tpm2.AttestationData` (decoding itself already checks the
`TPM_GENERATED_VALUE` magic). -/
structure AttestationData where
  typeTag : Nat
  extraData : List Nat
  attestedQuoteInfo : Option QuoteInfo
deriving DecidableEq

/-- A `pb.Quote` message. -/
structure Quote where
  quote : List Nat
  rawSig : List Nat
  pcrs : Pcrs
deriving DecidableEq

/-- The `crypto.PublicKey` passed to `VerifyQuote`: an ECDSA key, an RSA
key, or any other key type (keys are opaque handles). -/
inductive PublicKey where
  | ecdsaKey (key : Nat)
  | rsaKey (key : Nat)
  | otherKey (key : Nat)
deriving DecidableEq

/-- Oracles for the `tpm2` / `crypto` library calls. -/
structure CryptoEnv where
  decodeSignature : List Nat → Except GoError TPMSignature
  hashOf : Nat → Except GoError Nat
  hashData : Nat → List Nat → List Nat
  ecdsaVerify : Nat → List Nat → Int → Int → Bool
  rsaVerifyPKCS1v15 : Nat → Nat → List Nat → List Nat → Except GoError Unit
  decodeAttestationData : List Nat → Except GoError AttestationData

/-- `verifyECDSAQuoteSignature`: reject a non-ECDSA signature scheme, then
check the ECDSA signature over the digest of the quote bytes. -/
def verifyECDSAQuoteSignature (env : CryptoEnv) (pub : Nat) (hash : Nat)
    (quoted : List Nat) (sig : TPMSignature) : Except GoError Unit :=
  if sig.alg ≠ algECDSA then
    Except.error (GoError.simple
      "signature scheme is not supported, only ECDSA is supported")
  else if env.ecdsaVerify pub (env.hashData hash quoted) sig.eccR sig.eccS then
    Except.ok ()
  else Except.error (GoError.simple "ECC signature verification failed")

/-- `verifyRSASSAQuoteSignature`: reject a non-RSASSA signature scheme, then
check the PKCS#1 v1.5 signature over the digest of the quote bytes. -/
def verifyRSASSAQuoteSignature (env : CryptoEnv) (pub : Nat) (hash : Nat)
    (quoted : List Nat) (sig : TPMSignature) : Except GoError Unit :=
  if sig.alg ≠ algRSASSA then
    Except.error (GoError.simple
      "signature scheme is not supported, only RSASSA (PKCS#1 v1.5) is supported")
  else
    match env.rsaVerifyPKCS1v15 pub hash (env.hashData hash quoted)
        sig.rsaSignature with
    | Except.error e =>
      Except.error (GoError.wrap "RSASSA signature verification failed" e)
    | Except.ok _ => Except.ok ()

/-- The `switch pub := trustedPub.(type)` block of `VerifyQuote`: derive the
hash algorithm from the signature and verify it under the matching key
type; any other key type is rejected. -/
def sigCheck (env : CryptoEnv) (q : Quote) (trustedPub : PublicKey)
    (sig : TPMSignature) : Except GoError Nat :=
  match trustedPub with
  | PublicKey.ecdsaKey pub =>
    match env.hashOf sig.eccHashAlg with
    | Except.error e => Except.error e
    | Except.ok hash =>
      match verifyECDSAQuoteSignature env pub hash q.quote sig with
      | Except.error e => Except.error e
      | Except.ok _ => Except.ok hash
  | PublicKey.rsaKey pub =>
    match env.hashOf sig.rsaHashAlg with
    | Except.error e => Except.error e
    | Except.ok hash =>
      match verifyRSASSAQuoteSignature env pub hash q.quote sig with
      | Except.error e => Except.error e
      | Except.ok _ => Except.ok hash
  | PublicKey.otherKey _ =>
    Except.error (GoError.simple
      "only RSA and ECC public keys are currently supported")

/-- Modelled from the spec: `SamePCRSelection` (internal package, not among
the provided sources) — the provided PCRs and the quote's selection are
"identical": same bank hash algorithm and the same selected indices. -/
def SamePCRSelection (p : Pcrs) (sel : PCRSelection) : Bool :=
  decide (p.hash = sel.hash ∧ p.pcrs.map Prod.fst = sel.pcrs)

/-- Modelled from the spec: `PCRDigest` (internal package, not among the
provided sources) — the digest of the concatenation of the selected PCR
values under the given hash algorithm. -/
def PCRDigest (env : CryptoEnv) (p : Pcrs) (hash : Nat) : List Nat :=
  env.hashData hash (p.pcrs.map Prod.snd).flatten

/-- `validatePCRDigest`: same PCR selection, then equal PCR digest (the Go
code compares digests in constant time; equality is modelled). -/
def validatePCRDigest (env : CryptoEnv) (quoteInfo : QuoteInfo) (pcrs : Pcrs)
    (hash : Nat) : Except GoError Unit :=
  if SamePCRSelection pcrs quoteInfo.pcrSelection then
    (if quoteInfo.pcrDigest = PCRDigest env pcrs hash then Except.ok ()
     else Except.error (GoError.simple "given PCRs digest not matching"))
  else
    Except.error (GoError.simple
      "given PCRs and Quote do not have the same PCR selection")

/-- `VerifyQuote` from the `internal` package: decode the signature, verify
it under the trusted key (ECDSA or RSASSA, matching the key type), decode
the attestation data, require the quote tag, quote info, matching
`extraData` (constant-time in Go, equality here), and validate the PCR
digest. -/
def VerifyQuote (env : CryptoEnv) (q : Quote) (trustedPub : PublicKey)
    (extraData : List Nat) : Except GoError Unit :=
  match env.decodeSignature q.rawSig with
  | Except.error e => Except.error (GoError.wrap "signature decoding failed" e)
  | Except.ok sig =>
    match sigCheck env q trustedPub sig with
    | Except.error e => Except.error e
    | Except.ok hash =>
      match env.decodeAttestationData q.quote with
      | Except.error e =>
        Except.error (GoError.wrap "decoding attestation data failed" e)
      | Except.ok ad =>
        if ad.typeTag ≠ tagAttestQuote then
          Except.error (GoError.simple "expected quote tag")
        else
          match ad.attestedQuoteInfo with
          | none =>
            Except.error (GoError.simple
              "attestation data does not contain quote info")
          | some qi =>
            if ad.extraData = extraData then
              validatePCRDigest env qi q.pcrs hash
            else
              Except.error (GoError.simple
                "quote extraData did not match expected extraData")

/-- The ECDSA verification step succeeds exactly when the signature scheme
is ECDSA and the signature verifies. -/
theorem verifyECDSA_ok_iff (env : CryptoEnv) (pub : Nat) (hash : Nat)
    (quoted : List Nat) (sig : TPMSignature) :
    verifyECDSAQuoteSignature env pub hash quoted sig = Except.ok () ↔
    (sig.alg = algECDSA ∧
      env.ecdsaVerify pub (env.hashData hash quoted) sig.eccR sig.eccS
        = true) := by
  unfold verifyECDSAQuoteSignature
  by_cases halg : sig.alg = algECDSA
  · rw [if_neg (by simpa using halg)]
    by_cases hv : env.ecdsaVerify pub (env.hashData hash quoted) sig.eccR
        sig.eccS = true
    · rw [if_pos hv]
      simp [halg, hv]
    · rw [if_neg hv]
      simp [halg, hv]
  · rw [if_pos (by simpa using halg)]
    simp [halg]

/-- The RSASSA verification step succeeds exactly when the signature scheme
is RSASSA and the PKCS#1 v1.5 check passes. -/
theorem verifyRSASSA_ok_iff (env : CryptoEnv) (pub : Nat) (hash : Nat)
    (quoted : List Nat) (sig : TPMSignature) :
    verifyRSASSAQuoteSignature env pub hash quoted sig = Except.ok () ↔
    (sig.alg = algRSASSA ∧
      env.rsaVerifyPKCS1v15 pub hash (env.hashData hash quoted)
        sig.rsaSignature = Except.ok ()) := by
  unfold verifyRSASSAQuoteSignature
  by_cases halg : sig.alg = algRSASSA
  · rw [if_neg (by simpa using halg)]
    split
    · rename_i e hv
      simp [halg, hv]
    · rename_i u hv
      cases u
      simp [halg, hv]
  · rw [if_pos (by simpa using halg)]
    simp [halg]

/-- The signature stage succeeds exactly when the signature algorithm
matches the key type and the signature verifies. -/
theorem sigCheck_ok_iff (env : CryptoEnv) (q : Quote) (pub : PublicKey)
    (sig : TPMSignature) (hash : Nat) :
    sigCheck env q pub sig = Except.ok hash ↔
    ((∃ k, pub = PublicKey.ecdsaKey k ∧ sig.alg = algECDSA ∧
        env.hashOf sig.eccHashAlg = Except.ok hash ∧
        env.ecdsaVerify k (env.hashData hash q.quote) sig.eccR sig.eccS
          = true) ∨
     (∃ k, pub = PublicKey.rsaKey k ∧ sig.alg = algRSASSA ∧
        env.hashOf sig.rsaHashAlg = Except.ok hash ∧
        env.rsaVerifyPKCS1v15 k hash (env.hashData hash q.quote)
          sig.rsaSignature = Except.ok ())) := by
  cases pub with
  | ecdsaKey k =>
    simp only [sigCheck]
    split
    · rename_i e hh
      constructor
      · intro h; simp at h
      · rintro (⟨k2, hk, halg2, hhash, hv2⟩ | ⟨k2, hk, h1, h2x, h3⟩)
        · injection hk with hkk
          subst hkk
          rw [hh] at hhash
          simp at hhash
        · exact absurd hk (by simp)
    · rename_i h2 hh
      split
      · rename_i e hev
        constructor
        · intro h; simp at h
        · rintro (⟨k2, hk, halg2, hhash, hv2⟩ | ⟨k2, hk, h1, h2x, h3⟩)
          · injection hk with hkk
            subst hkk
            rw [hh] at hhash
            simp only [Except.ok.injEq] at hhash
            subst hhash
            have hok : verifyECDSAQuoteSignature env k h2 q.quote sig =
                Except.ok () :=
              (verifyECDSA_ok_iff env k h2 q.quote sig).mpr ⟨halg2, hv2⟩
            rw [hok] at hev
            simp at hev
          · exact absurd hk (by simp)
      · rename_i u hev
        cases u
        obtain ⟨halg, hv⟩ := (verifyECDSA_ok_iff env k h2 q.quote sig).mp hev
        constructor
        · intro h
          simp only [Except.ok.injEq] at h
          subst h
          exact Or.inl ⟨k, rfl, halg, hh, hv⟩
        · rintro (⟨k2, hk, halg2, hhash, hv2⟩ | ⟨k2, hk, h1, h2x, h3⟩)
          · injection hk with hkk
            subst hkk
            rw [hh] at hhash
            simp only [Except.ok.injEq] at hhash
            rw [hhash]
          · exact absurd hk (by simp)
  | rsaKey k =>
    simp only [sigCheck]
    split
    · rename_i e hh
      constructor
      · intro h; simp at h
      · rintro (⟨k2, hk, h1, h2x, h3⟩ | ⟨k2, hk, halg2, hhash, hv2⟩)
        · exact absurd hk (by simp)
        · injection hk with hkk
          subst hkk
          rw [hh] at hhash
          simp at hhash
    · rename_i h2 hh
      split
      · rename_i e hev
        constructor
        · intro h; simp at h
        · rintro (⟨k2, hk, h1, h2x, h3⟩ | ⟨k2, hk, halg2, hhash, hv2⟩)
          · exact absurd hk (by simp)
          · injection hk with hkk
            subst hkk
            rw [hh] at hhash
            simp only [Except.ok.injEq] at hhash
            subst hhash
            have hok : verifyRSASSAQuoteSignature env k h2 q.quote sig =
                Except.ok () :=
              (verifyRSASSA_ok_iff env k h2 q.quote sig).mpr ⟨halg2, hv2⟩
            rw [hok] at hev
            simp at hev
      · rename_i u hev
        cases u
        obtain ⟨halg, hv⟩ := (verifyRSASSA_ok_iff env k h2 q.quote sig).mp hev
        constructor
        · intro h
          simp only [Except.ok.injEq] at h
          subst h
          exact Or.inr ⟨k, rfl, halg, hh, hv⟩
        · rintro (⟨k2, hk, h1, h2x, h3⟩ | ⟨k2, hk, halg2, hhash, hv2⟩)
          · exact absurd hk (by simp)
          · injection hk with hkk
            subst hkk
            rw [hh] at hhash
            simp only [Except.ok.injEq] at hhash
            rw [hhash]
  | otherKey k =>
    simp [sigCheck]

/-- C4.  `VerifyQuote` succeeds exactly when all of the following hold (and
returns an error as soon as one fails): the raw signature decodes; the
signature's algorithm matches the public-key type (ECDSA for an ECDSA key,
RSASSA for an RSA key — any other key type is rejected) and the signature
verifies over the quote bytes; the attestation data decodes and carries the
quote tag; quote info is present; the attestation data's `extraData` equals
the caller's `extraData`; the provided PCRs have the same PCR selection as
the quote; and the digest of the concatenated selected PCR values under the
signature's hash algorithm equals the quote's PCR digest. -/
theorem VerifyQuote_ok_iff (env : CryptoEnv) (q : Quote) (pub : PublicKey)
    (extraData : List Nat) :
    VerifyQuote env q pub extraData = Except.ok () ↔
    ∃ sig hash ad qi,
      env.decodeSignature q.rawSig = Except.ok sig ∧
      ((∃ k, pub = PublicKey.ecdsaKey k ∧ sig.alg = algECDSA ∧
          env.hashOf sig.eccHashAlg = Except.ok hash ∧
          env.ecdsaVerify k (env.hashData hash q.quote) sig.eccR sig.eccS
            = true) ∨
       (∃ k, pub = PublicKey.rsaKey k ∧ sig.alg = algRSASSA ∧
          env.hashOf sig.rsaHashAlg = Except.ok hash ∧
          env.rsaVerifyPKCS1v15 k hash (env.hashData hash q.quote)
            sig.rsaSignature = Except.ok ())) ∧
      env.decodeAttestationData q.quote = Except.ok ad ∧
      ad.typeTag = tagAttestQuote ∧
      ad.attestedQuoteInfo = some qi ∧
      ad.extraData = extraData ∧
      SamePCRSelection q.pcrs qi.pcrSelection = true ∧
      qi.pcrDigest = PCRDigest env q.pcrs hash := by
  constructor
  · intro h
    unfold VerifyQuote at h
    split at h
    · simp at h
    · rename_i sig hdec
      split at h
      · simp at h
      · rename_i hash hsc
        split at h
        · simp at h
        · rename_i ad hdecAD
          split at h
          · simp at h
          · rename_i htagne
            split at h
            · simp at h
            · rename_i qi hqi
              split at h
              · rename_i hed
                unfold validatePCRDigest at h
                split at h
                · rename_i hsel
                  split at h
                  · rename_i hdig
                    exact ⟨sig, hash, ad, qi, hdec,
                      (sigCheck_ok_iff env q pub sig hash).mp hsc, hdecAD,
                      not_not.mp htagne, hqi, hed, hsel, hdig⟩
                  · simp at h
                · simp at h
              · simp at h
  · rintro ⟨sig, hash, ad, qi, hdec, hkey, hdecAD, htag, hqi, hed, hsel, hdig⟩
    have hsc : sigCheck env q pub sig = Except.ok hash :=
      (sigCheck_ok_iff env q pub sig hash).mpr hkey
    unfold VerifyQuote
    simp only [hdec, hsc, hdecAD]
    rw [if_neg (by simp [htag])]
    simp only [hqi]
    rw [if_pos hed]
    unfold validatePCRDigest
    rw [if_pos hsel, if_pos hdig]

/-- Concrete crypto environment for the C4 witness. -/
def c4Env : CryptoEnv :=
  CryptoEnv.mk
    (fun _ => Except.ok (TPMSignature.mk algECDSA 4 1 2 0 []))
    (fun h => Except.ok h)
    (fun h d => h :: d)
    (fun _ _ _ _ => true)
    (fun _ _ _ _ => Except.ok ())
    (fun _ => Except.ok (AttestationData.mk tagAttestQuote [7]
      (some (QuoteInfo.mk (PCRSelection.mk 4 [1]) [4, 9]))))

/-- Concrete quote for the C4 witness: PCR bank 4, PCR 1 with value `[9]`;
the digest of the concatenated values under hash 4 is `[4, 9]`. -/
def c4Quote : Quote := Quote.mk [5, 5] [6] (Pcrs.mk 4 [(1, [9])])

/-- C4, witness: in `c4Env`, `VerifyQuote` succeeds on `c4Quote` under an
ECDSA key with `extraData = [7]`, and the characterization produces the
checklist. -/
theorem VerifyQuote_ok_iff_witness :
    ∃ sig hash ad qi,
      c4Env.decodeSignature c4Quote.rawSig = Except.ok sig ∧
      ((∃ k, PublicKey.ecdsaKey 1 = PublicKey.ecdsaKey k ∧
          sig.alg = algECDSA ∧
          c4Env.hashOf sig.eccHashAlg = Except.ok hash ∧
          c4Env.ecdsaVerify k (c4Env.hashData hash c4Quote.quote) sig.eccR
            sig.eccS = true) ∨
       (∃ k, PublicKey.ecdsaKey 1 = PublicKey.rsaKey k ∧
          sig.alg = algRSASSA ∧
          c4Env.hashOf sig.rsaHashAlg = Except.ok hash ∧
          c4Env.rsaVerifyPKCS1v15 k hash (c4Env.hashData hash c4Quote.quote)
            sig.rsaSignature = Except.ok ())) ∧
      c4Env.decodeAttestationData c4Quote.quote = Except.ok ad ∧
      ad.typeTag = tagAttestQuote ∧
      ad.attestedQuoteInfo = some qi ∧
      ad.extraData = [7] ∧
      SamePCRSelection c4Quote.pcrs qi.pcrSelection = true ∧
      qi.pcrDigest = PCRDigest c4Env c4Quote.pcrs hash :=
  (VerifyQuote_ok_iff c4Env c4Quote (PublicKey.ecdsaKey 1) [7]).mp (by decide)

end GoTpmTools
